import Mathlib

/-!
Verification development for the quakeinsight repository.

This file is a shallow embedding, in Lean 4, of the algorithmic parts of the
repository's serverless functions and UI export helpers:

* `supabase/functions/send-sms-alert/index.ts` — two variants (Twilio and
  Fast2SMS) of an Indian-mobile-number validator and the handler's error
  mapping;
* `supabase/functions/fetch-earthquakes/index.ts` — query-parameter handling,
  the latitude/longitude → state → region lookup, the bundled historical
  earthquake list, sorting and statistics of the response;
* the seed/ingestion job — the duplicated state/region lookup, the row
  transform, the batch-of-500 upsert loop;
* the `HistoricalEarthquakes` component — CSV/JSON export of the filtered
  dataset.

Modelling conventions:
* JavaScript numbers are modelled as `Rat` (only order, arithmetic and
  equality on decimal literals are relevant to the claims; no float rounding
  is involved in any claim);
* a JavaScript `Date` is modelled as its epoch-millisecond value, an
  `Option Int` (`none` for an Invalid Date).  Calendar conversions
  (`getFullYear`, the `YYYY-MM-DD` part of `toISOString`) are implemented
  with the standard civil-from-days / days-from-civil algorithms on the
  proleptic Gregorian calendar, which is exactly what ECMAScript `Date`
  uses (in a UTC environment, which Supabase edge functions are);
* external effects (the USGS fetch, the database, the SMS gateway) are
  modelled as explicit inputs/outputs of pure functions;
* `x.toFixed(d)` followed by re-parsing the decimal string is modelled as
  the value-level rounding `toFixed d x` (round half away from zero to `d`
  decimal places, the ECMAScript rounding for values without float ties).
-/

/-! ## Generic JavaScript-semantics helpers -/

/-- The JavaScript default `a || d` for a possibly-absent string: `null`/`undefined` and `""` are
falsy in JavaScript, so both fall through to the default. -/
def jsOrStr (o : Option String) (d : String) : String :=
  match o with
  | none => d
  | some s => if s = "" then d else s

/-- The JavaScript default `a || d` for a possibly-absent number: `undefined` and `0` are falsy. -/
def jsOrRat (o : Option Rat) (d : Rat) : Rat :=
  match o with
  | none => d
  | some x => if x = 0 then d else x

/-- Truthiness of an environment variable (`Deno.env.get` result):
`undefined` and the empty string are falsy. -/
def jsStrTruthy : Option String → Bool
  | none => false
  | some s => !(s = "")

/-- The magnitude of `x.toFixed(d)` before the sign: `⌊|x|·10^d + 1/2⌋`,
computed on the numerator/denominator so that it evaluates by `decide`. -/
def toFixedScaled (d : Nat) (x : Rat) : Nat :=
  (2 * x.num.natAbs * 10 ^ d + x.den) / (2 * x.den)

/-- The numeric value denoted by the decimal string `x.toFixed(d)`:
round half away from zero to `d` decimal places. -/
def toFixed (d : Nat) (x : Rat) : Rat :=
  if 0 ≤ x.num then mkRat (toFixedScaled d x) (10 ^ d)
  else mkRat (-(toFixedScaled d x : Int)) (10 ^ d)

/-- Increment the count stored under key `k` in a JavaScript object used as a
counter map (`obj[k] = (obj[k] || 0) + 1`); absent keys count as 0, so the
object is modelled as a total function into `Nat`. -/
def bump {κ : Type} [DecidableEq κ] (f : κ → Nat) (k : κ) : κ → Nat :=
  fun k' => if k' = k then f k' + 1 else f k'

/-! ## Civil-calendar arithmetic (ECMAScript `Date`, UTC)

`daysFromCivil`/`civilFromDays` are the standard exact conversions between a
proleptic-Gregorian date and a day count since 1970-01-01. -/

/-- Day number (since 1970-01-01) of the civil date `y-m-d`. -/
def daysFromCivil (y m d : Int) : Int :=
  let y' := y - (if m ≤ 2 then 1 else 0)
  let era := Int.fdiv y' 400
  let yoe := y' - era * 400
  let mp := if m > 2 then m - 3 else m + 9
  let doy := Int.fdiv (153 * mp + 2) 5 + d - 1
  let doe := yoe * 365 + Int.fdiv yoe 4 - Int.fdiv yoe 100 + doy
  era * 146097 + doe - 719468

/-- Civil date `(y, m, d)` of a day number (since 1970-01-01). -/
def civilFromDays (z0 : Int) : Int × Int × Int :=
  let z := z0 + 719468
  let era := Int.fdiv z 146097
  let doe := z - era * 146097
  let yoe := Int.fdiv (doe - Int.fdiv doe 1460 + Int.fdiv doe 36524 - Int.fdiv doe 146096) 365
  let y := yoe + era * 400
  let doy := doe - (365 * yoe + Int.fdiv yoe 4 - Int.fdiv yoe 100)
  let mp := Int.fdiv (5 * doy + 2) 153
  let d := doy - Int.fdiv (153 * mp + 2) 5 + 1
  let m := mp + (if mp < 10 then 3 else -9)
  (if m ≤ 2 then y + 1 else y, m, d)

/-- The value of `new Date(ms).getFullYear()` for a valid date, in a UTC environment. -/
def yearOfMs (ms : Int) : Int :=
  (civilFromDays (Int.fdiv ms 86400000)).1

/-- The `getFullYear` lookup lifted to possibly-invalid dates (`NaN` year for an
Invalid Date is modelled as `none`). -/
def getFullYear (t : Option Int) : Option Int :=
  t.map yearOfMs

def isLeapYear (y : Int) : Bool :=
  (y % 4 = 0 && y % 100 ≠ 0) || y % 400 = 0

def daysInMonth (y m : Int) : Int :=
  if m = 2 then (if isLeapYear y then 29 else 28)
  else if m = 4 ∨ m = 6 ∨ m = 9 ∨ m = 11 then 30
  else 31

/-- Epoch milliseconds of `Date.parse("YYYY-MM-DDThh:mm:00Z")`, or `none`
(Invalid Date) when the field values are out of range — e.g. a day of `00`. -/
def mkTime (y m d hh mi : Int) : Option Int :=
  if 1 ≤ m ∧ m ≤ 12 ∧ 1 ≤ d ∧ d ≤ daysInMonth y m ∧
     0 ≤ hh ∧ hh ≤ 23 ∧ 0 ≤ mi ∧ mi ≤ 59 then
    some (daysFromCivil y m d * 86400000 + hh * 3600000 + mi * 60000)
  else none

/-! ## Phone-number validation (`send-sms-alert`, both variants)

Strings are handled as `List Char`. -/

/-- Characters matched by the regex class `\s` (the JavaScript whitespace
set, restricted to the characters Lean's `Char` can spell directly). -/
def isJsSpace (c : Char) : Bool :=
  c = ' ' || c = '\t' || c = '\n' || c = '\r' ||
  c = '\x0b' || c = '\x0c' || c = ' '

/-- The handler's cleaning step: a global regex replace deleting all
whitespace (`\s`) followed by one deleting all dashes. -/
def cleanPhone (s : List Char) : List Char :=
  s.filter (fun c => !(isJsSpace c || c = '-'))

def isDigitChar (c : Char) : Bool := '0' ≤ c && c ≤ '9'

/-- The language of `^[6-9]\d{9}$`: a 10-digit string starting with 6–9. -/
def isCore (cs : List Char) : Bool :=
  match cs with
  | [] => false
  | c :: rest => ('6' ≤ c && c ≤ '9') && rest.length = 9 && rest.all isDigitChar

/-- Does `l` start with the pattern `pat`? -/
def startsWithChars : List Char → List Char → Bool
  | [], _ => true
  | _ :: _, [] => false
  | p :: ps, c :: cs => p = c && startsWithChars ps cs

/-- String replacement `s.replace(pat, "")` with a plain (non-regex) pattern: JavaScript
deletes only the first occurrence of `pat`, anywhere in the string. -/
def removeFirst (pat : List Char) : List Char → List Char
  | [] => []
  | c :: cs =>
    if startsWithChars pat (c :: cs) then (c :: cs).drop pat.length
    else c :: removeFirst pat cs

/-- The Twilio variant's validation: clean, then test
`^(\+91|91)?[6-9]\d{9}$`. -/
def twilioAccepts (s : List Char) : Bool :=
  let cs := cleanPhone s
  isCore cs ||
  (startsWithChars ['+', '9', '1'] cs && isCore (cs.drop 3)) ||
  (startsWithChars ['9', '1'] cs && isCore (cs.drop 2))

/-- The Fast2SMS variant's cleaning: clean whitespace/dashes, then
`.replace("+91", "").replace("91", "")` — each deleting only the *first*
occurrence, anywhere in the string — and test `^[6-9]\d{9}$`. -/
def fast2smsCheck (cs : List Char) : Bool :=
  isCore (removeFirst ['9', '1'] (removeFirst ['+', '9', '1'] cs))

def fast2smsAccepts (s : List Char) : Bool :=
  fast2smsCheck (cleanPhone s)

/-- The set of strings the claim describes: after removing spaces and
dashes, a 10-digit number starting with 6–9, with or without a `+91`/`91`
country-code prefix. -/
def ClaimPhoneValid (s : List Char) : Prop :=
  ∃ core : List Char, isCore core = true ∧
    (cleanPhone s = core ∨
     cleanPhone s = '+' :: '9' :: '1' :: core ∨
     cleanPhone s = '9' :: '1' :: core)

/-! ## State/region lookup (`fetch-earthquakes` copy)

Transcribed condition-for-condition from the `getIndianState` /
`getRegion` closures inside the `fetch-earthquakes` handler. -/

def getIndianState_fetch (lat lng : Rat) : String :=
  if lat > 32 ∧ lng < 77 then "Jammu & Kashmir" else
  if lat > 30 ∧ lat ≤ 32 ∧ lng < 77 then "Himachal Pradesh" else
  if lat > 29 ∧ lat ≤ 32 ∧ lng ≥ 77 ∧ lng < 80 then "Uttarakhand" else
  if lat > 26 ∧ lat ≤ 30 ∧ lng ≥ 72 ∧ lng < 76 then "Rajasthan" else
  if lat > 28 ∧ lat ≤ 30 ∧ lng ≥ 76 ∧ lng < 78 then "Delhi NCR" else
  if lat > 27 ∧ lat ≤ 31 ∧ lng ≥ 78 ∧ lng < 85 then "Uttar Pradesh" else
  if lat > 24 ∧ lat ≤ 27 ∧ lng ≥ 80 ∧ lng < 88 then "Bihar" else
  if lat > 25 ∧ lat ≤ 28 ∧ lng ≥ 88 ∧ lng < 92 then "West Bengal" else
  if lat > 26 ∧ lat ≤ 28 ∧ lng ≥ 92 ∧ lng < 95 then "Assam" else
  if lat > 25 ∧ lat ≤ 27 ∧ lng ≥ 93 ∧ lng < 95 then "Manipur" else
  if lat > 24 ∧ lat ≤ 26 ∧ lng ≥ 91 ∧ lng < 93 then "Meghalaya" else
  if lat > 23 ∧ lat ≤ 25 ∧ lng ≥ 91 ∧ lng < 93 then "Tripura" else
  if lat > 21 ∧ lat ≤ 24 ∧ lng ≥ 91 ∧ lng < 93 then "Mizoram" else
  if lat > 26 ∧ lat ≤ 28 ∧ lng ≥ 93 ∧ lng < 96 then "Nagaland" else
  if lat > 27 ∧ lat ≤ 29 ∧ lng ≥ 93 ∧ lng < 95 then "Arunachal Pradesh" else
  if lat > 27 ∧ lat ≤ 29 ∧ lng ≥ 88 ∧ lng < 89 then "Sikkim" else
  if lat > 21 ∧ lat ≤ 26 ∧ lng ≥ 80 ∧ lng < 88 then "Jharkhand" else
  if lat > 19 ∧ lat ≤ 22 ∧ lng ≥ 84 ∧ lng < 88 then "Odisha" else
  if lat > 20 ∧ lat ≤ 24 ∧ lng ≥ 78 ∧ lng < 85 then "Chhattisgarh" else
  if lat > 20 ∧ lat ≤ 26 ∧ lng ≥ 74 ∧ lng < 80 then "Madhya Pradesh" else
  if lat > 18 ∧ lat ≤ 24 ∧ lng ≥ 69 ∧ lng < 75 then "Gujarat" else
  if lat > 15 ∧ lat ≤ 22 ∧ lng ≥ 72 ∧ lng < 80 then "Maharashtra" else
  if lat > 13 ∧ lat ≤ 18 ∧ lng ≥ 74 ∧ lng < 81 then "Karnataka" else
  if lat > 8 ∧ lat ≤ 14 ∧ lng ≥ 74 ∧ lng < 78 then "Kerala" else
  if lat > 8 ∧ lat ≤ 13 ∧ lng ≥ 77 ∧ lng < 80 then "Tamil Nadu" else
  if lat > 13 ∧ lat ≤ 19 ∧ lng ≥ 78 ∧ lng < 85 then "Andhra Pradesh" else
  if lat > 15 ∧ lat ≤ 20 ∧ lng ≥ 78 ∧ lng < 81 then "Telangana" else
  if lat > 14 ∧ lat ≤ 16 ∧ lng ≥ 73 ∧ lng < 75 then "Goa" else
  if lat > 6 ∧ lat ≤ 12 ∧ lng ≥ 92 ∧ lng < 94 then "Andaman & Nicobar Islands" else
  "India"

/-- Disjunction of the 29 boundary conditions listed in `getIndianState`. -/
def StateRuleMatches (lat lng : Rat) : Prop :=
  (lat > 32 ∧ lng < 77) ∨
  (lat > 30 ∧ lat ≤ 32 ∧ lng < 77) ∨
  (lat > 29 ∧ lat ≤ 32 ∧ lng ≥ 77 ∧ lng < 80) ∨
  (lat > 26 ∧ lat ≤ 30 ∧ lng ≥ 72 ∧ lng < 76) ∨
  (lat > 28 ∧ lat ≤ 30 ∧ lng ≥ 76 ∧ lng < 78) ∨
  (lat > 27 ∧ lat ≤ 31 ∧ lng ≥ 78 ∧ lng < 85) ∨
  (lat > 24 ∧ lat ≤ 27 ∧ lng ≥ 80 ∧ lng < 88) ∨
  (lat > 25 ∧ lat ≤ 28 ∧ lng ≥ 88 ∧ lng < 92) ∨
  (lat > 26 ∧ lat ≤ 28 ∧ lng ≥ 92 ∧ lng < 95) ∨
  (lat > 25 ∧ lat ≤ 27 ∧ lng ≥ 93 ∧ lng < 95) ∨
  (lat > 24 ∧ lat ≤ 26 ∧ lng ≥ 91 ∧ lng < 93) ∨
  (lat > 23 ∧ lat ≤ 25 ∧ lng ≥ 91 ∧ lng < 93) ∨
  (lat > 21 ∧ lat ≤ 24 ∧ lng ≥ 91 ∧ lng < 93) ∨
  (lat > 26 ∧ lat ≤ 28 ∧ lng ≥ 93 ∧ lng < 96) ∨
  (lat > 27 ∧ lat ≤ 29 ∧ lng ≥ 93 ∧ lng < 95) ∨
  (lat > 27 ∧ lat ≤ 29 ∧ lng ≥ 88 ∧ lng < 89) ∨
  (lat > 21 ∧ lat ≤ 26 ∧ lng ≥ 80 ∧ lng < 88) ∨
  (lat > 19 ∧ lat ≤ 22 ∧ lng ≥ 84 ∧ lng < 88) ∨
  (lat > 20 ∧ lat ≤ 24 ∧ lng ≥ 78 ∧ lng < 85) ∨
  (lat > 20 ∧ lat ≤ 26 ∧ lng ≥ 74 ∧ lng < 80) ∨
  (lat > 18 ∧ lat ≤ 24 ∧ lng ≥ 69 ∧ lng < 75) ∨
  (lat > 15 ∧ lat ≤ 22 ∧ lng ≥ 72 ∧ lng < 80) ∨
  (lat > 13 ∧ lat ≤ 18 ∧ lng ≥ 74 ∧ lng < 81) ∨
  (lat > 8 ∧ lat ≤ 14 ∧ lng ≥ 74 ∧ lng < 78) ∨
  (lat > 8 ∧ lat ≤ 13 ∧ lng ≥ 77 ∧ lng < 80) ∨
  (lat > 13 ∧ lat ≤ 19 ∧ lng ≥ 78 ∧ lng < 85) ∨
  (lat > 15 ∧ lat ≤ 20 ∧ lng ≥ 78 ∧ lng < 81) ∨
  (lat > 14 ∧ lat ≤ 16 ∧ lng ≥ 73 ∧ lng < 75) ∨
  (lat > 6 ∧ lat ≤ 12 ∧ lng ≥ 92 ∧ lng < 94)

def northEastStates : List String :=
  ["Assam", "Manipur", "Meghalaya", "Tripura", "Mizoram", "Nagaland",
   "Arunachal Pradesh", "Sikkim"]

def northStates : List String :=
  ["Jammu & Kashmir", "Himachal Pradesh", "Uttarakhand", "Delhi NCR",
   "Uttar Pradesh", "Punjab", "Haryana"]

def centralStates : List String := ["Madhya Pradesh", "Chhattisgarh", "Jharkhand"]

def westStates : List String := ["Gujarat", "Maharashtra", "Rajasthan", "Goa"]

def southStates : List String :=
  ["Karnataka", "Kerala", "Tamil Nadu", "Andhra Pradesh", "Telangana"]

def eastStates : List String := ["Bihar", "West Bengal", "Odisha"]

/-- The `getRegion` closure of the `fetch-earthquakes` handler: six `includes` tests
in order. -/
def getRegion_fetch (state : String) : String :=
  if state ∈ northEastStates then "North-East India" else
  if state ∈ northStates then "North India" else
  if state ∈ centralStates then "Central India" else
  if state ∈ westStates then "West India" else
  if state ∈ southStates then "South India" else
  if state ∈ eastStates then "East India" else
  "India"

/-- All states appearing in one of the six region lists. -/
def allRegionStates : List String :=
  northEastStates ++ northStates ++ centralStates ++ westStates ++
  southStates ++ eastStates

/-! ## State/region lookup (seed-job copy)

The seed job repeats `getIndianState` verbatim and writes `getRegion` as a
loop over the entries of a region-to-states object (JavaScript object
entries iterate in insertion order). -/

def getIndianState_seed (lat lng : Rat) : String :=
  if lat > 32 ∧ lng < 77 then "Jammu & Kashmir" else
  if lat > 30 ∧ lat ≤ 32 ∧ lng < 77 then "Himachal Pradesh" else
  if lat > 29 ∧ lat ≤ 32 ∧ lng ≥ 77 ∧ lng < 80 then "Uttarakhand" else
  if lat > 26 ∧ lat ≤ 30 ∧ lng ≥ 72 ∧ lng < 76 then "Rajasthan" else
  if lat > 28 ∧ lat ≤ 30 ∧ lng ≥ 76 ∧ lng < 78 then "Delhi NCR" else
  if lat > 27 ∧ lat ≤ 31 ∧ lng ≥ 78 ∧ lng < 85 then "Uttar Pradesh" else
  if lat > 24 ∧ lat ≤ 27 ∧ lng ≥ 80 ∧ lng < 88 then "Bihar" else
  if lat > 25 ∧ lat ≤ 28 ∧ lng ≥ 88 ∧ lng < 92 then "West Bengal" else
  if lat > 26 ∧ lat ≤ 28 ∧ lng ≥ 92 ∧ lng < 95 then "Assam" else
  if lat > 25 ∧ lat ≤ 27 ∧ lng ≥ 93 ∧ lng < 95 then "Manipur" else
  if lat > 24 ∧ lat ≤ 26 ∧ lng ≥ 91 ∧ lng < 93 then "Meghalaya" else
  if lat > 23 ∧ lat ≤ 25 ∧ lng ≥ 91 ∧ lng < 93 then "Tripura" else
  if lat > 21 ∧ lat ≤ 24 ∧ lng ≥ 91 ∧ lng < 93 then "Mizoram" else
  if lat > 26 ∧ lat ≤ 28 ∧ lng ≥ 93 ∧ lng < 96 then "Nagaland" else
  if lat > 27 ∧ lat ≤ 29 ∧ lng ≥ 93 ∧ lng < 95 then "Arunachal Pradesh" else
  if lat > 27 ∧ lat ≤ 29 ∧ lng ≥ 88 ∧ lng < 89 then "Sikkim" else
  if lat > 21 ∧ lat ≤ 26 ∧ lng ≥ 80 ∧ lng < 88 then "Jharkhand" else
  if lat > 19 ∧ lat ≤ 22 ∧ lng ≥ 84 ∧ lng < 88 then "Odisha" else
  if lat > 20 ∧ lat ≤ 24 ∧ lng ≥ 78 ∧ lng < 85 then "Chhattisgarh" else
  if lat > 20 ∧ lat ≤ 26 ∧ lng ≥ 74 ∧ lng < 80 then "Madhya Pradesh" else
  if lat > 18 ∧ lat ≤ 24 ∧ lng ≥ 69 ∧ lng < 75 then "Gujarat" else
  if lat > 15 ∧ lat ≤ 22 ∧ lng ≥ 72 ∧ lng < 80 then "Maharashtra" else
  if lat > 13 ∧ lat ≤ 18 ∧ lng ≥ 74 ∧ lng < 81 then "Karnataka" else
  if lat > 8 ∧ lat ≤ 14 ∧ lng ≥ 74 ∧ lng < 78 then "Kerala" else
  if lat > 8 ∧ lat ≤ 13 ∧ lng ≥ 77 ∧ lng < 80 then "Tamil Nadu" else
  if lat > 13 ∧ lat ≤ 19 ∧ lng ≥ 78 ∧ lng < 85 then "Andhra Pradesh" else
  if lat > 15 ∧ lat ≤ 20 ∧ lng ≥ 78 ∧ lng < 81 then "Telangana" else
  if lat > 14 ∧ lat ≤ 16 ∧ lng ≥ 73 ∧ lng < 75 then "Goa" else
  if lat > 6 ∧ lat ≤ 12 ∧ lng ≥ 92 ∧ lng < 94 then "Andaman & Nicobar Islands" else
  "India"

/-- The seed job's region map, in object-literal insertion order. -/
def regionEntries : List (String × List String) :=
  [("North-East India",
    ["Assam", "Manipur", "Meghalaya", "Tripura", "Mizoram", "Nagaland",
     "Arunachal Pradesh", "Sikkim"]),
   ("North India",
    ["Jammu & Kashmir", "Himachal Pradesh", "Uttarakhand", "Delhi NCR",
     "Uttar Pradesh", "Punjab", "Haryana"]),
   ("Central India", ["Madhya Pradesh", "Chhattisgarh", "Jharkhand"]),
   ("West India", ["Gujarat", "Maharashtra", "Rajasthan", "Goa"]),
   ("South India",
    ["Karnataka", "Kerala", "Tamil Nadu", "Andhra Pradesh", "Telangana"]),
   ("East India", ["Bihar", "West Bengal", "Odisha"])]

/-- The seed job's `for (const [region, states] of Object.entries(map))`
loop: return the first region whose state list contains `s`. -/
def lookupRegion : List (String × List String) → String → String
  | [], _ => "India"
  | (region, states) :: rest, s =>
    if s ∈ states then region else lookupRegion rest s

def getRegion_seed (s : String) : String :=
  lookupRegion regionEntries s

/-! ## `fetch-earthquakes`: data model -/

/-- An earthquake record as produced and returned by the
`fetch-earthquakes` handler.  `time` is the epoch-millisecond value of the
record's ISO time string (`none` for an Invalid Date). -/
structure Earthquake where
  id : String
  magnitude : Rat
  location : String
  time : Option Int
  depth : Rat
  lat : Rat
  lng : Rat
  state : String
  region : String
  isHistorical : Bool
deriving DecidableEq

/-- The value of `new Date(eq.time).getTime()` with invalid dates defaulted; every record
that reaches a sort or an export in the code has a valid time. -/
def timeKey (eq : Earthquake) : Int :=
  eq.time.getD 0

/-- A USGS GeoJSON feature, reduced to the fields the handler reads:
`feature.id`, `feature.properties.mag`, `feature.properties.place`,
`feature.properties.time` (epoch ms) and `feature.geometry.coordinates`
(`[lng, lat, depth]`, the third entry possibly absent). -/
structure Feature where
  id : String
  mag? : Option Rat
  place? : Option String
  timeMs : Int
  lng : Rat
  lat : Rat
  depth? : Option Rat

/-- The handler's mapping from a USGS feature to an `Earthquake`. -/
def usgsToEq (f : Feature) : Earthquake :=
  let state := getIndianState_fetch f.lat f.lng
  let region := getRegion_fetch state
  { id := f.id
    magnitude := jsOrRat f.mag? 0
    location := jsOrStr f.place? (state ++ ", India")
    time := some f.timeMs
    depth := jsOrRat f.depth? 0
    lat := f.lat
    lng := f.lng
    state := state
    region := region
    isHistorical := decide (yearOfMs f.timeMs < 2000) }

/-- The `historicalEarthquakes` constant bundled in the handler.  Each
`time` is the parse of the record's ISO string; note `hist-1668` carries
the invalid date `1668-05-00T00:00:00Z`, whose parse is `none`. -/
def historicalEarthquakes : List Earthquake :=
  [{ id := "hist-1505", magnitude := 8, location := "Lo Mustang Region, Nepal-India Border",
     time := mkTime 1505 6 6 0 0, depth := 30, lat := mkRat 59 2, lng := mkRat 167 2,
     state := "Uttarakhand", region := "North India", isHistorical := true },
   { id := "hist-1555", magnitude := mkRat 76 10, location := "Kashmir Region",
     time := mkTime 1555 9 1 0 0, depth := 25, lat := 34, lng := mkRat 149 2,
     state := "Jammu & Kashmir", region := "North India", isHistorical := true },
   { id := "hist-1618", magnitude := mkRat 68 10, location := "Bombay (Mumbai) Region",
     time := mkTime 1618 5 26 0 0, depth := 20, lat := 19, lng := mkRat 728 10,
     state := "Maharashtra", region := "West India", isHistorical := true },
   { id := "hist-1668", magnitude := mkRat 76 10, location := "Samaji, Kutch Region",
     time := mkTime 1668 5 0 0 0, depth := 25, lat := mkRat 233 10, lng := mkRat 699 10,
     state := "Gujarat", region := "West India", isHistorical := true },
   { id := "hist-1720", magnitude := mkRat 65 10, location := "Delhi Region",
     time := mkTime 1720 7 15 0 0, depth := 15, lat := mkRat 286 10, lng := mkRat 772 10,
     state := "Delhi NCR", region := "North India", isHistorical := true },
   { id := "hist-1737", magnitude := 7, location := "Calcutta (Kolkata) Region",
     time := mkTime 1737 10 11 0 0, depth := 30, lat := mkRat 225 10, lng := mkRat 883 10,
     state := "West Bengal", region := "East India", isHistorical := true },
   { id := "hist-1762", magnitude := mkRat 75 10, location := "Arakan Coast, Bay of Bengal",
     time := mkTime 1762 4 2 0 0, depth := 35, lat := 22, lng := mkRat 915 10,
     state := "Tripura", region := "North-East India", isHistorical := true },
   { id := "hist-1803", magnitude := mkRat 75 10, location := "Kumaon-Garhwal Region",
     time := mkTime 1803 9 1 0 0, depth := 20, lat := 30, lng := mkRat 795 10,
     state := "Uttarakhand", region := "North India", isHistorical := true },
   { id := "hist-1819", magnitude := mkRat 77 10, location := "Allah Bund, Kutch",
     time := mkTime 1819 6 16 0 0, depth := 25, lat := mkRat 236 10, lng := mkRat 696 10,
     state := "Gujarat", region := "West India", isHistorical := true },
   { id := "hist-1828", magnitude := mkRat 68 10, location := "Kashmir Valley",
     time := mkTime 1828 6 26 0 0, depth := 20, lat := mkRat 341 10, lng := mkRat 748 10,
     state := "Jammu & Kashmir", region := "North India", isHistorical := true },
   { id := "hist-1833", magnitude := mkRat 76 10, location := "Bihar-Nepal Border",
     time := mkTime 1833 8 26 0 0, depth := 35, lat := mkRat 277 10, lng := mkRat 855 10,
     state := "Bihar", region := "East India", isHistorical := true },
   { id := "hist-1842", magnitude := mkRat 65 10, location := "Jhelum Valley, Kashmir",
     time := mkTime 1842 2 19 0 0, depth := 15, lat := mkRat 344 10, lng := mkRat 737 10,
     state := "Jammu & Kashmir", region := "North India", isHistorical := true },
   { id := "hist-1845", magnitude := mkRat 63 10, location := "Sind Region",
     time := mkTime 1845 4 19 0 0, depth := 20, lat := mkRat 255 10, lng := mkRat 685 10,
     state := "Gujarat", region := "West India", isHistorical := true },
   { id := "hist-1863", magnitude := mkRat 67 10, location := "Kangra Region",
     time := mkTime 1863 3 30 0 0, depth := 20, lat := mkRat 321 10, lng := mkRat 763 10,
     state := "Himachal Pradesh", region := "North India", isHistorical := true },
   { id := "hist-1869", magnitude := mkRat 74 10, location := "Cachar, Assam",
     time := mkTime 1869 1 10 0 0, depth := 30, lat := mkRat 245 10, lng := mkRat 925 10,
     state := "Assam", region := "North-East India", isHistorical := true },
   { id := "hist-1885", magnitude := 7, location := "Srinagar, Kashmir",
     time := mkTime 1885 5 30 0 0, depth := 25, lat := mkRat 341 10, lng := mkRat 748 10,
     state := "Jammu & Kashmir", region := "North India", isHistorical := true },
   { id := "hist-1897", magnitude := mkRat 81 10, location := "Shillong Plateau, Assam",
     time := mkTime 1897 6 12 0 0, depth := 35, lat := mkRat 259 10, lng := 91,
     state := "Meghalaya", region := "North-East India", isHistorical := true },
   { id := "hist-1905", magnitude := mkRat 78 10, location := "Kangra, Himachal Pradesh",
     time := mkTime 1905 4 4 6 20, depth := 20, lat := mkRat 323 10, lng := mkRat 763 10,
     state := "Himachal Pradesh", region := "North India", isHistorical := true },
   { id := "hist-1918", magnitude := mkRat 76 10, location := "Srimangal, Assam",
     time := mkTime 1918 7 8 0 0, depth := 30, lat := mkRat 245 10, lng := mkRat 918 10,
     state := "Assam", region := "North-East India", isHistorical := true },
   { id := "hist-1930", magnitude := mkRat 71 10, location := "Dhubri, Assam",
     time := mkTime 1930 7 2 0 0, depth := 25, lat := 26, lng := 90,
     state := "Assam", region := "North-East India", isHistorical := true },
   { id := "hist-1934", magnitude := mkRat 81 10, location := "Bihar-Nepal Border",
     time := mkTime 1934 1 15 8 43, depth := 33, lat := mkRat 265 10, lng := mkRat 865 10,
     state := "Bihar", region := "East India", isHistorical := true },
   { id := "hist-1935", magnitude := mkRat 77 10, location := "Quetta, Baluchistan",
     time := mkTime 1935 5 30 0 0, depth := 25, lat := mkRat 296 10, lng := mkRat 664 10,
     state := "India", region := "West India", isHistorical := true },
   { id := "hist-1941", magnitude := mkRat 81 10, location := "Andaman Islands",
     time := mkTime 1941 6 26 0 0, depth := 35, lat := mkRat 125 10, lng := mkRat 925 10,
     state := "Andaman & Nicobar Islands", region := "Andaman Sea", isHistorical := true },
   { id := "hist-1943", magnitude := mkRat 72 10, location := "Assam",
     time := mkTime 1943 10 23 0 0, depth := 30, lat := mkRat 268 10, lng := 94,
     state := "Assam", region := "North-East India", isHistorical := true },
   { id := "hist-1950", magnitude := mkRat 86 10, location := "Assam-Tibet Border",
     time := mkTime 1950 8 15 14 9, depth := 35, lat := mkRat 285 10, lng := mkRat 965 10,
     state := "Arunachal Pradesh", region := "North-East India", isHistorical := true },
   { id := "hist-1956", magnitude := mkRat 67 10, location := "Anjar, Gujarat",
     time := mkTime 1956 7 21 0 0, depth := 20, lat := mkRat 231 10, lng := 70,
     state := "Gujarat", region := "West India", isHistorical := true },
   { id := "hist-1966", magnitude := mkRat 58 10, location := "Koyna Dam, Maharashtra",
     time := mkTime 1966 12 10 0 0, depth := 15, lat := mkRat 174 10, lng := mkRat 737 10,
     state := "Maharashtra", region := "West India", isHistorical := true },
   { id := "hist-1967", magnitude := mkRat 63 10, location := "Koyna, Maharashtra",
     time := mkTime 1967 12 10 22 51, depth := 10, lat := mkRat 174 10, lng := mkRat 737 10,
     state := "Maharashtra", region := "West India", isHistorical := true },
   { id := "hist-1975", magnitude := mkRat 67 10, location := "Kinnaur, Himachal Pradesh",
     time := mkTime 1975 1 19 0 0, depth := 25, lat := mkRat 315 10, lng := mkRat 785 10,
     state := "Himachal Pradesh", region := "North India", isHistorical := true },
   { id := "hist-1988", magnitude := mkRat 69 10, location := "Bihar-Nepal Border",
     time := mkTime 1988 8 21 4 39, depth := 65, lat := mkRat 267 10, lng := mkRat 866 10,
     state := "Bihar", region := "East India", isHistorical := true },
   { id := "hist-1991", magnitude := mkRat 68 10, location := "Uttarkashi, Uttarakhand",
     time := mkTime 1991 10 20 2 53, depth := 12, lat := mkRat 308 10, lng := mkRat 788 10,
     state := "Uttarakhand", region := "North India", isHistorical := true },
   { id := "hist-1993", magnitude := mkRat 62 10, location := "Killari (Latur), Maharashtra",
     time := mkTime 1993 9 30 0 3, depth := 10, lat := mkRat 181 10, lng := mkRat 765 10,
     state := "Maharashtra", region := "West India", isHistorical := true },
   { id := "hist-1997", magnitude := 6, location := "Jabalpur, Madhya Pradesh",
     time := mkTime 1997 5 22 0 51, depth := 35, lat := mkRat 231 10, lng := 80,
     state := "Madhya Pradesh", region := "Central India", isHistorical := true },
   { id := "hist-1999", magnitude := mkRat 66 10, location := "Chamoli, Uttarakhand",
     time := mkTime 1999 3 29 0 35, depth := 15, lat := mkRat 304 10, lng := mkRat 794 10,
     state := "Uttarakhand", region := "North India", isHistorical := true },
   { id := "hist-2001", magnitude := mkRat 77 10, location := "Bhuj, Gujarat",
     time := mkTime 2001 1 26 3 16, depth := 16, lat := mkRat 234 10, lng := mkRat 702 10,
     state := "Gujarat", region := "West India", isHistorical := true },
   { id := "hist-2004", magnitude := mkRat 91 10, location := "Sumatra-Andaman",
     time := mkTime 2004 12 26 0 58, depth := 30, lat := 13, lng := 93,
     state := "Andaman & Nicobar Islands", region := "Andaman Sea", isHistorical := true },
   { id := "hist-2005", magnitude := mkRat 76 10, location := "Kashmir",
     time := mkTime 2005 10 8 3 50, depth := 26, lat := mkRat 345 10, lng := mkRat 736 10,
     state := "Jammu & Kashmir", region := "North India", isHistorical := true },
   { id := "hist-2011", magnitude := mkRat 69 10, location := "Sikkim",
     time := mkTime 2011 9 18 12 40, depth := 50, lat := mkRat 277 10, lng := mkRat 882 10,
     state := "Sikkim", region := "North-East India", isHistorical := true },
   { id := "hist-2015", magnitude := mkRat 78 10, location := "Nepal-India Border",
     time := mkTime 2015 4 25 6 11, depth := 15, lat := mkRat 282 10, lng := mkRat 847 10,
     state := "Bihar", region := "East India", isHistorical := true },
   { id := "hist-2016", magnitude := mkRat 67 10, location := "Manipur",
     time := mkTime 2016 1 4 4 35, depth := 55, lat := mkRat 248 10, lng := mkRat 937 10,
     state := "Manipur", region := "North-East India", isHistorical := true }]

/-- The handler's filter over the bundled historical list:
`year >= startYear && year <= endYear && eq.magnitude >= minMagnitude`,
where `year` is `new Date(eq.time).getFullYear()` — `NaN` (here `none`)
fails every comparison. -/
def histKeep (startYear endYear : Int) (minMagnitude : Rat) (eq : Earthquake) : Bool :=
  match getFullYear eq.time with
  | none => false
  | some y => decide (startYear ≤ y) && decide (y ≤ endYear) &&
              decide (minMagnitude ≤ eq.magnitude)

/-! ## `fetch-earthquakes`: sorting, statistics, handler -/

/-- The sort comparator `(a, b) => new Date(b.time).getTime() - new
Date(a.time).getTime()`: most recent first.  `Array.prototype.sort` with a
consistent comparator produces the (unique stable) sorted permutation,
modelled by `List.insertionSort` below. -/
def timeDesc (a b : Earthquake) : Prop :=
  timeKey b ≤ timeKey a

instance : DecidableRel timeDesc :=
  fun a b => inferInstanceAs (Decidable (timeKey b ≤ timeKey a))

instance : IsTotal Earthquake timeDesc :=
  ⟨fun a b => le_total (timeKey b) (timeKey a)⟩

instance : IsTrans Earthquake timeDesc :=
  ⟨fun _ _ _ hab hbc => le_trans hbc hab⟩

/-- The decade key `Math.floor(year/10) * 10` of a record's (possibly `NaN`) year. -/
def decadeOf (eq : Earthquake) : Option Int :=
  (getFullYear eq.time).map (fun y => Int.fdiv y 10 * 10)

/-- The statistics object built by the handler.  `byRegion`/`byDecade` are
JavaScript counter objects, modelled as total functions (absent key = 0);
`avgMagnitude` is the value of the `toFixed(1)` string the code produces
(and the number `0` for an empty list). -/
structure FetchStats where
  total : Nat
  avgMagnitude : Rat
  maxMagnitude : Rat
  byRegion : String → Nat
  byDecade : Option Int → Nat

/-- The keys of the `stats` object literal in the handler. -/
def statsObjectKeys : List String :=
  ["total", "avgMagnitude", "maxMagnitude", "byRegion", "byDecade"]

/-- The handler's statistics pass over the (sorted) result list. -/
def computeStats (l : List Earthquake) : FetchStats :=
  { total := l.length
    avgMagnitude :=
      if l.length = 0 then 0
      else toFixed 1 ((l.map (fun eq => eq.magnitude)).sum / (l.length : Rat))
    maxMagnitude :=
      match l.map (fun eq => eq.magnitude) with
      | [] => 0
      | m :: ms => ms.foldl max m
    byRegion := l.foldl (fun f eq => bump f eq.region) (fun _ => 0)
    byDecade := l.foldl (fun f eq => bump f (decadeOf eq)) (fun _ => 0) }

/-- The query parameters the request URL may carry.  Numeric parameters are
carried already parsed (`parseInt`/`parseFloat`); `none` means absent. -/
structure FetchQuery where
  type? : Option String
  startYear? : Option Int
  endYear? : Option Int
  minMagnitude? : Option Rat
  state? : Option String
  region? : Option String
  limit? : Option String

/-- The start-time component of the USGS request URL. -/
inductive UsgsStart
  | last30Days
  | janFirst (year : Int)
deriving DecidableEq

/-- The parameters of the USGS request URL the handler builds (the
latitude/longitude bounding box is constant and omitted). -/
structure UsgsRequest where
  minMagnitude : Rat
  start : UsgsStart
  endYear : Int
  limit : Nat
deriving DecidableEq

/-- The USGS request the handler issues when `dataType` is `recent` or
`all` (transcribing the `usgsUrl` template literal). -/
def usgsRequestOf (dataType : String) (startYear endYear : Int)
    (minMagnitude : Rat) : UsgsRequest :=
  { minMagnitude := max minMagnitude (if dataType = "all" then mkRat 9 2 else 0)
    start := if dataType = "recent" then .last30Days
             else .janFirst (max 1900 startYear)
    endYear := endYear
    limit := 2000 }

/-- The successful response body of `fetch-earthquakes`. -/
structure FetchResponse where
  earthquakes : List Earthquake
  count : Nat
  stats : FetchStats
  dataType : String
  dateRange : Int × Int

/-- The keys of the response object literal
`{ earthquakes, count, stats, dataType, dateRange }`. -/
def fetchResponseKeys : List String :=
  ["earthquakes", "count", "stats", "dataType", "dateRange"]

/-- The `fetch-earthquakes` handler on the success path, as a function of
the current year (for the `endYear` default), the parsed query and the
feature list returned by the USGS fetch. -/
def fetchHandler (nowYear : Int) (q : FetchQuery) (features : List Feature) :
    FetchResponse :=
  let dataType := jsOrStr q.type? "recent"
  let startYear := q.startYear?.getD 1900
  let endYear := q.endYear?.getD nowYear
  let minMagnitude := q.minMagnitude?.getD 0
  let usgsEqs : List Earthquake :=
    if dataType = "recent" ∨ dataType = "all" then features.map usgsToEq else []
  let histEqs : List Earthquake :=
    if dataType = "historical" ∨ dataType = "all" then
      (historicalEarthquakes.filter (histKeep startYear endYear minMagnitude)).filter
        (fun eq => !((usgsEqs.map (fun e => e.id)).contains eq.id))
    else []
  let sorted := List.insertionSort timeDesc (usgsEqs ++ histEqs)
  { earthquakes := sorted
    count := sorted.length
    stats := computeStats sorted
    dataType := dataType
    dateRange := (startYear, endYear) }

/-! ## `send-sms-alert` (Twilio variant): handler control flow -/

/-- The fixed user-facing strings of the Twilio-variant handler. -/
def invalidPhoneMsg : String :=
  "Please enter a valid Indian mobile number (10 digits starting with 6-9)"

def notConfiguredMsg : String :=
  "SMS service not configured. Please contact administrator."

def badSidFormatMsg : String :=
  "SMS service configuration error. Invalid Account SID format."

def defaultSendFailMsg : String := "Failed to send SMS"

def authFailedMsg : String :=
  "SMS service authentication failed. Please check credentials."

def invalidToMsg : String := "Invalid 'To' phone number format."

def fromNotVerifiedMsg : String :=
  "The 'From' number is not verified for this region."

def unsubscribedMsg : String := "This number has unsubscribed from SMS."

def smsSuccessMsg : String :=
  "Alert registered! You will receive a confirmation SMS shortly."

/-- The Twilio credentials read from the environment. -/
structure SmsEnv where
  accountSid? : Option String
  authToken? : Option String
  fromNumber? : Option String

/-- The handler's parse of a failed Twilio response body
(`{ message?, code? }`). -/
structure TwilioErr where
  message? : Option String
  code? : Option Int
deriving DecidableEq

/-- The outcome of the `fetch` to the Twilio API: a 2xx response carrying a
message SID, or a non-ok response whose body parses to a `TwilioErr`
(`none` when `JSON.parse` throws). -/
inductive TwilioResult
  | ok (sid : String)
  | fail (parsed : Option TwilioErr)
deriving DecidableEq

/-- The error string the handler builds for a non-ok Twilio response:
`errorData.message || "Failed to send SMS"`, overridden by a fixed string
for the four recognised Twilio error codes. -/
def twilioErrorMessage (p : Option TwilioErr) : String :=
  match p with
  | none => defaultSendFailMsg
  | some e =>
    let base := jsOrStr e.message? defaultSendFailMsg
    if e.code? = some 20003 then authFailedMsg
    else if e.code? = some 21211 then invalidToMsg
    else if e.code? = some 21608 then fromNotVerifiedMsg
    else if e.code? = some 21610 then unsubscribedMsg
    else base

/-- A response body of the handler: `{ success: true, message, sid }` on
success, `{ error }` on failure. -/
inductive SmsBody
  | success (message : String) (sid : String)
  | failure (error : String)
deriving DecidableEq

structure SmsResponse where
  status : Nat
  body : SmsBody
deriving DecidableEq

/-- The Twilio-variant handler: validate the phone number, check the
credentials, check the Account SID format, then map the upstream result. -/
def sendSmsHandler (phoneNumber : String) (env : SmsEnv)
    (upstream : TwilioResult) : SmsResponse :=
  if twilioAccepts phoneNumber.toList = false then
    ⟨400, .failure invalidPhoneMsg⟩
  else if !(jsStrTruthy env.accountSid? && jsStrTruthy env.authToken? &&
            jsStrTruthy env.fromNumber?) then
    ⟨500, .failure notConfiguredMsg⟩
  else
    let sid := env.accountSid?.getD ""
    if !(startsWithChars ['A', 'C'] sid.toList && sid.length = 34) then
      ⟨500, .failure badSidFormatMsg⟩
    else
      match upstream with
      | .fail p => ⟨500, .failure (twilioErrorMessage p)⟩
      | .ok msid => ⟨200, .success smsSuccessMsg msid⟩

/-! ## Seed/ingestion job -/

/-- A row of the `earthquakes` table as built by the seed job's transform
(`created_at` is filled by the database and omitted). -/
structure DbRow where
  id : String
  magnitude : Rat
  location : String
  occurred_at : Option Int
  depth : Rat
  latitude : Rat
  longitude : Rat
  state : String
  region : String
  is_historical : Bool
  source : String
deriving DecidableEq

/-- The seed job's `rows = features.map(...)` transform (it uses its own
copies of the state/region lookups). -/
def seedTransform (f : Feature) : DbRow :=
  let state := getIndianState_seed f.lat f.lng
  let region := getRegion_seed state
  { id := f.id
    magnitude := jsOrRat f.mag? 0
    location := jsOrStr f.place? (state ++ ", India")
    occurred_at := some f.timeMs
    depth := jsOrRat f.depth? 0
    latitude := f.lat
    longitude := f.lng
    state := state
    region := region
    is_historical := decide (yearOfMs f.timeMs < 2000)
    source := "USGS" }

/-- Consecutive slices of at most 500 rows:
`for (let i = 0; i < rows.length; i += 500) rows.slice(i, i + 500)`. -/
def chunk500 {α : Type} : List α → List (List α)
  | [] => []
  | a :: tl => (a :: tl).take 500 :: chunk500 ((a :: tl).drop 500)
termination_by l => l.length
decreasing_by simp [List.length_drop]; omega

/-- Keyed upsert of one row (`onConflict: "id"`): replace the
existing row with that id, or append the row. -/
def upsertRow (t : List DbRow) (r : DbRow) : List DbRow :=
  if t.any (fun x => x.id = r.id) then
    t.map (fun x => if x.id = r.id then r else x)
  else t ++ [r]

/-- Keyed upsert of a batch: row-wise, in order. -/
def upsertBatch (t : List DbRow) (b : List DbRow) : List DbRow :=
  b.foldl upsertRow t

/-- The seed job's batch loop.  `fails i` says whether the database errors
on the `i`-th batch (the code only logs such an error and continues).
The accumulator is `(table state, inserted counter, batches attempted)`. -/
def seedLoopAux (fails : Nat → Bool) :
    Nat → List DbRow × Nat × Nat → List (List DbRow) → List DbRow × Nat × Nat
  | _, acc, [] => acc
  | i, (t, ins, att), b :: bs =>
    if fails i then seedLoopAux fails (i + 1) (t, ins, att + 1) bs
    else seedLoopAux fails (i + 1) (upsertBatch t b, ins + b.length, att + 1) bs

/-- The whole seed run over a feature list: transform, chunk into batches
of 500, loop.  Returns `(final table, total_inserted, batches attempted)`. -/
def seedRun (t0 : List DbRow) (fails : Nat → Bool) (features : List Feature) :
    List DbRow × Nat × Nat :=
  seedLoopAux fails 0 (t0, 0, 0) (chunk500 (features.map seedTransform))

/-! ## CSV/JSON export (`HistoricalEarthquakes` component)

Both copies of the component export the filtered list identically (the
fetched-data variant adds an `isHistorical` flag to the JSON rows).  A
row's serialised fields are modelled by their parsed-back values: the
`YYYY-MM-DD` date string by its day number, a `toFixed(d)` string by the
rounded rational it denotes. -/

/-- The CSV quoting of the location: double every double-quote character and wrap the result in double quotes. -/
def csvQuote (s : String) : String :=
  "\"" ++ s.replace "\"" "\"\"" ++ "\""

/-- One CSV data row
`[date, magnitude.toFixed(1), location, state, region, depth.toFixed(1),
lat.toFixed(4), lng.toFixed(4)]`. -/
structure CsvRow where
  dateDay : Int
  magnitude : Rat
  location : String
  state : String
  region : String
  depth : Rat
  latitude : Rat
  longitude : Rat
deriving DecidableEq

/-- One entry of the exported JSON `earthquakes` array. -/
structure JsonRow where
  dateDay : Int
  magnitude : Rat
  location : String
  state : String
  region : String
  depth_km : Rat
  latitude : Rat
  longitude : Rat
  isHistorical : Bool
deriving DecidableEq

/-- The date part of the export, `toISOString().split("T")[0]`, as a day number. -/
def exportDateDay (eq : Earthquake) : Int :=
  Int.fdiv (timeKey eq) 86400000

def exportCsvRow (eq : Earthquake) : CsvRow :=
  { dateDay := exportDateDay eq
    magnitude := toFixed 1 eq.magnitude
    location := csvQuote eq.location
    state := eq.state
    region := eq.region
    depth := toFixed 1 eq.depth
    latitude := toFixed 4 eq.lat
    longitude := toFixed 4 eq.lng }

def exportJsonRow (eq : Earthquake) : JsonRow :=
  { dateDay := exportDateDay eq
    magnitude := eq.magnitude
    location := eq.location
    state := eq.state
    region := eq.region
    depth_km := eq.depth
    latitude := eq.lat
    longitude := eq.lng
    isHistorical := eq.isHistorical }

/-- The `exportToCSV` action (the header row is constant and omitted):
`none` models the early return on an empty filtered list. -/
def exportToCSV (l : List Earthquake) : Option (List CsvRow) :=
  if l.isEmpty then none else some (l.map exportCsvRow)

/-- The `exportToJSON` action, restricted to the `earthquakes` array (the `metadata`
and `statistics` blocks carry no per-record data). -/
def exportToJSON (l : List Earthquake) : Option (List JsonRow) :=
  if l.isEmpty then none else some (l.map exportJsonRow)

/-- The record fields the round-trip claim is about, as recovered by
parsing an exported row. -/
structure ParsedRecord where
  magnitude : Rat
  latitude : Rat
  longitude : Rat
  timeMs : Int
deriving DecidableEq

/-- Parsing a CSV data row: numbers re-parsed from their decimal strings,
the timestamp from the `YYYY-MM-DD` date (midnight UTC). -/
def parseCsvRow (r : CsvRow) : ParsedRecord :=
  { magnitude := r.magnitude
    latitude := r.latitude
    longitude := r.longitude
    timeMs := r.dateDay * 86400000 }

/-- Parsing a JSON row. -/
def parseJsonRow (r : JsonRow) : ParsedRecord :=
  { magnitude := r.magnitude
    latitude := r.latitude
    longitude := r.longitude
    timeMs := r.dateDay * 86400000 }

/-! # Helper lemmas -/

theorem startsWithChars_iff (p : List Char) :
    ∀ l, startsWithChars p l = true ↔ ∃ t, p ++ t = l := by
  induction p with
  | nil =>
    intro l
    simp [startsWithChars]
  | cons p ps ih =>
    intro l
    cases l with
    | nil =>
      simp [startsWithChars]
    | cons c cs =>
      simp only [startsWithChars, Bool.and_eq_true, decide_eq_true_eq, ih,
        List.cons_append, List.cons.injEq]
      constructor
      · rintro ⟨rfl, t, rfl⟩
        exact ⟨t, rfl, rfl⟩
      · rintro ⟨t, rfl, rfl⟩
        exact ⟨rfl, t, rfl⟩

theorem removeFirst_of_no_occurrence {pat : List Char} :
    ∀ {l : List Char}, ¬ pat <:+: l → removeFirst pat l = l := by
  intro l
  induction l with
  | nil => intro _; rfl
  | cons c cs ih =>
    intro h
    have hpre : startsWithChars pat (c :: cs) = false := by
      by_contra hb
      have := (startsWithChars_iff pat (c :: cs)).mp (by simpa using hb)
      exact h ⟨[], this.choose, by simpa using this.choose_spec⟩
    have htail : ¬ pat <:+: cs := fun hct => h (List.infix_cons hct)
    simp [removeFirst, hpre, ih htail]

theorem removeFirst_head_not_mem {c : Char} {pat : List Char} :
    ∀ {l : List Char}, c ∉ l → removeFirst (c :: pat) l = l := by
  intro l
  induction l with
  | nil => intro _; rfl
  | cons a l ih =>
    intro h
    have hne : (c = a) = False := by
      simp only [eq_iff_iff, iff_false]
      intro hca
      exact h (hca ▸ List.mem_cons_self a l)
    simp [removeFirst, startsWithChars, hne, ih (fun hm => h (List.mem_cons_of_mem a hm))]

theorem isCore_all_digits {cs : List Char} (h : isCore cs = true) :
    ∀ c ∈ cs, isDigitChar c = true := by
  match cs, h with
  | c :: rest, h =>
    simp only [isCore, Bool.and_eq_true, decide_eq_true_eq, List.all_eq_true] at h
    intro x hx
    rcases List.mem_cons.mp hx with rfl | hx
    · have h6 : ('0' : Char) ≤ '6' := by decide
      simp only [isDigitChar, Bool.and_eq_true, decide_eq_true_eq]
      exact ⟨le_trans h6 h.1.1.1, le_trans h.1.1.2 (by decide)⟩
    · exact h.2 x hx

theorem plus_not_mem_of_core {cs : List Char} (h : isCore cs = true) : '+' ∉ cs := by
  intro hm
  have := isCore_all_digits h '+' hm
  simp [isDigitChar] at this

/-! # Claim C1 -/

/-- Claim C1 (counterexample).  The claim states that both provider variants
accept exactly the strings that clean to a 10-digit number starting with
6–9, with or without a country-code prefix.  The input `"9198765432"` is
such a string (10 digits, starting with 9), yet the Fast2SMS variant
rejects it: its cleaning step deletes the first occurrence of `"91"`
*anywhere* in the string, leaving the 8-digit `"98765432"`. -/
theorem C1_counterexample :
    ClaimPhoneValid "9198765432".toList ∧
    fast2smsAccepts "9198765432".toList = false := by
  constructor
  · exact ⟨"9198765432".toList, by decide, Or.inl (by decide)⟩
  · decide

/-- Claim C1 (amended).  The Twilio variant accepts exactly the claimed set.
The Fast2SMS variant deletes the first occurrence of `"+91"` and then the
first occurrence of `"91"` anywhere in the cleaned string and accepts iff
a 10-digit number starting 6–9 remains; it agrees with the claimed set on
every cleaned input that is `"91"` followed by a valid core, and on every
valid core not containing the substring `"91"` (optionally preceded by
`"+91"`), but disagrees on cores containing `"91"`. -/
theorem C1_amended :
    (∀ s : List Char, twilioAccepts s = true ↔ ClaimPhoneValid s)
    ∧ (∀ cs : List Char, isCore cs = true → ¬ (['9', '1'] <:+: cs) →
        fast2smsCheck cs = true)
    ∧ (∀ cs : List Char, isCore cs = true →
        fast2smsCheck ('9' :: '1' :: cs) = true)
    ∧ (∀ cs : List Char, isCore cs = true → ¬ (['9', '1'] <:+: cs) →
        fast2smsCheck ('+' :: '9' :: '1' :: cs) = true) := by
  refine ⟨?_, ?_, ?_, ?_⟩
  · intro s
    simp only [twilioAccepts, Bool.or_eq_true, Bool.and_eq_true]
    constructor
    · rintro ((h | ⟨hpre, hcore⟩) | ⟨hpre, hcore⟩)
      · exact ⟨cleanPhone s, h, Or.inl rfl⟩
      · obtain ⟨t, ht⟩ := (startsWithChars_iff _ _).mp hpre
        refine ⟨t, ?_, Or.inr (Or.inl ht.symm)⟩
        rwa [← ht] at hcore
      · obtain ⟨t, ht⟩ := (startsWithChars_iff _ _).mp hpre
        refine ⟨t, ?_, Or.inr (Or.inr ht.symm)⟩
        rwa [← ht] at hcore
    · rintro ⟨core, hcore, (h | h | h)⟩
      · exact Or.inl (Or.inl (h ▸ hcore))
      · refine Or.inl (Or.inr ⟨(startsWithChars_iff _ _).mpr ⟨core, h.symm⟩, ?_⟩)
        rw [h]; exact hcore
      · refine Or.inr ⟨(startsWithChars_iff _ _).mpr ⟨core, h.symm⟩, ?_⟩
        rw [h]; exact hcore
  · intro cs hcore hinf
    have h1 : removeFirst ['+', '9', '1'] cs = cs :=
      removeFirst_head_not_mem (plus_not_mem_of_core hcore)
    have h2 : removeFirst ['9', '1'] cs = cs := removeFirst_of_no_occurrence hinf
    show isCore (removeFirst ['9', '1'] (removeFirst ['+', '9', '1'] cs)) = true
    rw [h1, h2]; exact hcore
  · intro cs hcore
    have hplus : '+' ∉ '9' :: '1' :: cs := by
      intro hm
      rcases List.mem_cons.mp hm with h | hm
      · exact absurd h (by decide)
      rcases List.mem_cons.mp hm with h | hm
      · exact absurd h (by decide)
      · exact plus_not_mem_of_core hcore hm
    have h1 : removeFirst ['+', '9', '1'] ('9' :: '1' :: cs) = '9' :: '1' :: cs :=
      removeFirst_head_not_mem hplus
    have h2 : removeFirst ['9', '1'] ('9' :: '1' :: cs) = cs := by
      simp [removeFirst, startsWithChars]
    show isCore (removeFirst ['9', '1']
      (removeFirst ['+', '9', '1'] ('9' :: '1' :: cs))) = true
    rw [h1, h2]; exact hcore
  · intro cs hcore hinf
    have h1 : removeFirst ['+', '9', '1'] ('+' :: '9' :: '1' :: cs) = cs := by
      simp [removeFirst, startsWithChars]
    have h2 : removeFirst ['9', '1'] cs = cs := removeFirst_of_no_occurrence hinf
    show isCore (removeFirst ['9', '1']
      (removeFirst ['+', '9', '1'] ('+' :: '9' :: '1' :: cs))) = true
    rw [h1, h2]; exact hcore

/-- Claim C1 (witness).  Concrete instances of each part of `C1_amended`. -/
theorem C1_amended_witness :
    twilioAccepts "98765 432-10".toList = true
    ∧ fast2smsCheck "8765432109".toList = true
    ∧ fast2smsCheck ('9' :: '1' :: "8765432109".toList) = true
    ∧ fast2smsCheck ('+' :: '9' :: '1' :: "8765432109".toList) = true := by
  refine ⟨?_, ?_, ?_, ?_⟩
  · exact (C1_amended.1 _).mpr ⟨"9876543210".toList, by decide, Or.inl (by decide)⟩
  · exact C1_amended.2.1 _ (by decide) (by decide)
  · exact C1_amended.2.2.1 _ (by decide)
  · exact C1_amended.2.2.2 _ (by decide) (by decide)

/-! # Claim C2 -/

/-- The labels `getIndianState` can return (the 29 states plus the
default `"India"`). -/
def indianStateLabels : List String :=
  ["Jammu & Kashmir", "Himachal Pradesh", "Uttarakhand", "Rajasthan",
   "Delhi NCR", "Uttar Pradesh", "Bihar", "West Bengal", "Assam", "Manipur",
   "Meghalaya", "Tripura", "Mizoram", "Nagaland", "Arunachal Pradesh",
   "Sikkim", "Jharkhand", "Odisha", "Chhattisgarh", "Madhya Pradesh",
   "Gujarat", "Maharashtra", "Karnataka", "Kerala", "Tamil Nadu",
   "Andhra Pradesh", "Telangana", "Goa", "Andaman & Nicobar Islands",
   "India"]

/-- Claim C2 (confirmed).  `getIndianState` is a pure total function: for every
rational pair it returns one of the listed labels; whenever none of the 29
listed boundary conditions holds it returns the default `"India"`; and
`getRegion` returns `"India"` for every state in none of its six lists. -/
theorem C2_lookup_total :
    (∀ lat lng : Rat, getIndianState_fetch lat lng ∈ indianStateLabels)
    ∧ (∀ lat lng : Rat, ¬ StateRuleMatches lat lng →
        getIndianState_fetch lat lng = "India")
    ∧ (∀ s : String, s ∉ allRegionStates → getRegion_fetch s = "India") := by
  refine ⟨?_, ?_, ?_⟩
  · intro lat lng
    unfold getIndianState_fetch
    by_cases hc1 : lat > 32 ∧ lng < 77
    · rw [if_pos hc1]; decide
    rw [if_neg hc1]
    by_cases hc2 : lat > 30 ∧ lat ≤ 32 ∧ lng < 77
    · rw [if_pos hc2]; decide
    rw [if_neg hc2]
    by_cases hc3 : lat > 29 ∧ lat ≤ 32 ∧ lng ≥ 77 ∧ lng < 80
    · rw [if_pos hc3]; decide
    rw [if_neg hc3]
    by_cases hc4 : lat > 26 ∧ lat ≤ 30 ∧ lng ≥ 72 ∧ lng < 76
    · rw [if_pos hc4]; decide
    rw [if_neg hc4]
    by_cases hc5 : lat > 28 ∧ lat ≤ 30 ∧ lng ≥ 76 ∧ lng < 78
    · rw [if_pos hc5]; decide
    rw [if_neg hc5]
    by_cases hc6 : lat > 27 ∧ lat ≤ 31 ∧ lng ≥ 78 ∧ lng < 85
    · rw [if_pos hc6]; decide
    rw [if_neg hc6]
    by_cases hc7 : lat > 24 ∧ lat ≤ 27 ∧ lng ≥ 80 ∧ lng < 88
    · rw [if_pos hc7]; decide
    rw [if_neg hc7]
    by_cases hc8 : lat > 25 ∧ lat ≤ 28 ∧ lng ≥ 88 ∧ lng < 92
    · rw [if_pos hc8]; decide
    rw [if_neg hc8]
    by_cases hc9 : lat > 26 ∧ lat ≤ 28 ∧ lng ≥ 92 ∧ lng < 95
    · rw [if_pos hc9]; decide
    rw [if_neg hc9]
    by_cases hc10 : lat > 25 ∧ lat ≤ 27 ∧ lng ≥ 93 ∧ lng < 95
    · rw [if_pos hc10]; decide
    rw [if_neg hc10]
    by_cases hc11 : lat > 24 ∧ lat ≤ 26 ∧ lng ≥ 91 ∧ lng < 93
    · rw [if_pos hc11]; decide
    rw [if_neg hc11]
    by_cases hc12 : lat > 23 ∧ lat ≤ 25 ∧ lng ≥ 91 ∧ lng < 93
    · rw [if_pos hc12]; decide
    rw [if_neg hc12]
    by_cases hc13 : lat > 21 ∧ lat ≤ 24 ∧ lng ≥ 91 ∧ lng < 93
    · rw [if_pos hc13]; decide
    rw [if_neg hc13]
    by_cases hc14 : lat > 26 ∧ lat ≤ 28 ∧ lng ≥ 93 ∧ lng < 96
    · rw [if_pos hc14]; decide
    rw [if_neg hc14]
    by_cases hc15 : lat > 27 ∧ lat ≤ 29 ∧ lng ≥ 93 ∧ lng < 95
    · rw [if_pos hc15]; decide
    rw [if_neg hc15]
    by_cases hc16 : lat > 27 ∧ lat ≤ 29 ∧ lng ≥ 88 ∧ lng < 89
    · rw [if_pos hc16]; decide
    rw [if_neg hc16]
    by_cases hc17 : lat > 21 ∧ lat ≤ 26 ∧ lng ≥ 80 ∧ lng < 88
    · rw [if_pos hc17]; decide
    rw [if_neg hc17]
    by_cases hc18 : lat > 19 ∧ lat ≤ 22 ∧ lng ≥ 84 ∧ lng < 88
    · rw [if_pos hc18]; decide
    rw [if_neg hc18]
    by_cases hc19 : lat > 20 ∧ lat ≤ 24 ∧ lng ≥ 78 ∧ lng < 85
    · rw [if_pos hc19]; decide
    rw [if_neg hc19]
    by_cases hc20 : lat > 20 ∧ lat ≤ 26 ∧ lng ≥ 74 ∧ lng < 80
    · rw [if_pos hc20]; decide
    rw [if_neg hc20]
    by_cases hc21 : lat > 18 ∧ lat ≤ 24 ∧ lng ≥ 69 ∧ lng < 75
    · rw [if_pos hc21]; decide
    rw [if_neg hc21]
    by_cases hc22 : lat > 15 ∧ lat ≤ 22 ∧ lng ≥ 72 ∧ lng < 80
    · rw [if_pos hc22]; decide
    rw [if_neg hc22]
    by_cases hc23 : lat > 13 ∧ lat ≤ 18 ∧ lng ≥ 74 ∧ lng < 81
    · rw [if_pos hc23]; decide
    rw [if_neg hc23]
    by_cases hc24 : lat > 8 ∧ lat ≤ 14 ∧ lng ≥ 74 ∧ lng < 78
    · rw [if_pos hc24]; decide
    rw [if_neg hc24]
    by_cases hc25 : lat > 8 ∧ lat ≤ 13 ∧ lng ≥ 77 ∧ lng < 80
    · rw [if_pos hc25]; decide
    rw [if_neg hc25]
    by_cases hc26 : lat > 13 ∧ lat ≤ 19 ∧ lng ≥ 78 ∧ lng < 85
    · rw [if_pos hc26]; decide
    rw [if_neg hc26]
    by_cases hc27 : lat > 15 ∧ lat ≤ 20 ∧ lng ≥ 78 ∧ lng < 81
    · rw [if_pos hc27]; decide
    rw [if_neg hc27]
    by_cases hc28 : lat > 14 ∧ lat ≤ 16 ∧ lng ≥ 73 ∧ lng < 75
    · rw [if_pos hc28]; decide
    rw [if_neg hc28]
    by_cases hc29 : lat > 6 ∧ lat ≤ 12 ∧ lng ≥ 92 ∧ lng < 94
    · rw [if_pos hc29]; decide
    rw [if_neg hc29]
    decide
  · intro lat lng h
    simp only [StateRuleMatches, not_or] at h
    obtain ⟨h1, h2, h3, h4, h5, h6, h7, h8, h9, h10, h11, h12, h13, h14, h15,
      h16, h17, h18, h19, h20, h21, h22, h23, h24, h25, h26, h27, h28, h29⟩ := h
    unfold getIndianState_fetch
    rw [if_neg h1, if_neg h2, if_neg h3, if_neg h4, if_neg h5, if_neg h6,
      if_neg h7, if_neg h8, if_neg h9, if_neg h10, if_neg h11, if_neg h12,
      if_neg h13, if_neg h14, if_neg h15, if_neg h16, if_neg h17, if_neg h18,
      if_neg h19, if_neg h20, if_neg h21, if_neg h22, if_neg h23, if_neg h24,
      if_neg h25, if_neg h26, if_neg h27, if_neg h28, if_neg h29]
  · intro s h
    simp only [allRegionStates, List.mem_append, not_or] at h
    obtain ⟨⟨⟨⟨⟨hne, hn⟩, hc⟩, hw⟩, hs⟩, he⟩ := h
    unfold getRegion_fetch
    rw [if_neg hne, if_neg hn, if_neg hc, if_neg hw, if_neg hs, if_neg he]

set_option maxHeartbeats 1600000 in
/-- Claim C2 (witness).  The point `(0, 0)` matches no rule and the string
`"Kathmandu"` is in no region list; both map to `"India"`. -/
theorem C2_lookup_total_witness :
    getIndianState_fetch 0 0 = "India" ∧ getRegion_fetch "Kathmandu" = "India" := by
  have hnot : ¬ StateRuleMatches 0 0 := by
    rintro (h | h | h | h | h | h | h | h | h | h | h | h | h | h | h | h | h |
      h | h | h | h | h | h | h | h | h | h | h | h)
    all_goals exact absurd h.1 (by decide)
  exact ⟨C2_lookup_total.2.1 0 0 hnot, C2_lookup_total.2.2 "Kathmandu" (by decide)⟩

/-! # Claim C10 -/

/-- Claim C10 (confirmed).  The two copies of the coordinate-to-state and
state-to-region classification — the closures in the `fetch-earthquakes`
handler and the top-level functions of the seed job — are extensionally
equal (in fact definitionally: the state rule chains are identical, and the
seed job's entry loop unfolds to the handler's `includes` chain). -/
theorem C10_lookup_copies_agree :
    (∀ lat lng : Rat, getIndianState_fetch lat lng = getIndianState_seed lat lng)
    ∧ (∀ s : String, getRegion_fetch s = getRegion_seed s) :=
  ⟨fun _ _ => rfl, fun _ => rfl⟩

/-! # Seed-job lemmas (chunking, upsert, batch loop) -/

theorem chunk500_flatten {α : Type} : ∀ (l : List α), (chunk500 l).flatten = l := by
  intro l
  induction l using chunk500.induct with
  | case1 => rw [chunk500]; rfl
  | case2 a tl ih =>
    rw [chunk500, List.flatten_cons, ih, List.take_append_drop]

theorem chunk500_length_le {α : Type} :
    ∀ (l : List α), ∀ b ∈ chunk500 l, b.length ≤ 500 := by
  intro l
  induction l using chunk500.induct with
  | case1 => intro b hb; rw [chunk500] at hb; simp at hb
  | case2 a tl ih =>
    intro b hb
    rw [chunk500] at hb
    rcases List.mem_cons.mp hb with rfl | hb
    · simp
    · exact ih b hb

theorem upsertRow_idem (t : List DbRow) (r : DbRow) :
    upsertRow (upsertRow t r) r = upsertRow t r := by
  by_cases h : t.any (fun x => decide (x.id = r.id)) = true
  · have hu : upsertRow t r = t.map (fun x => if x.id = r.id then r else x) := by
      rw [upsertRow, if_pos h]
    rw [hu]
    have h2 : (t.map (fun x => if x.id = r.id then r else x)).any
        (fun x => decide (x.id = r.id)) = true := by
      rw [List.any_eq_true] at h ⊢
      obtain ⟨x, hx, hp⟩ := h
      simp only [decide_eq_true_eq] at hp
      exact ⟨r, List.mem_map.mpr ⟨x, hx, by simp [hp]⟩, by simp⟩
    rw [upsertRow, if_pos h2, List.map_map]
    apply List.map_congr_left
    intro x _
    by_cases hx : x.id = r.id
    · simp [hx]
    · simp [hx]
  · have hall : ∀ x ∈ t, ¬ x.id = r.id := by
      intro x hx hxr
      exact h (List.any_eq_true.mpr ⟨x, hx, by simp [hxr]⟩)
    have hu : upsertRow t r = t ++ [r] := by
      rw [upsertRow, if_neg h]
    rw [hu]
    have h2 : (t ++ [r]).any (fun x => decide (x.id = r.id)) = true := by
      simp
    rw [upsertRow, if_pos h2, List.map_append]
    have ht : t.map (fun x => if x.id = r.id then r else x) = t := by
      refine (List.map_congr_left ?_).trans (List.map_id t)
      intro x hx
      simp [hall x hx]
    rw [ht]
    simp

theorem countP_upsertRow (t : List DbRow) (r : DbRow)
    (h : t.countP (fun x => decide (x.id = r.id)) ≤ 1) :
    (upsertRow t r).countP (fun x => decide (x.id = r.id)) = 1 := by
  by_cases hany : t.any (fun x => decide (x.id = r.id)) = true
  · rw [upsertRow, if_pos hany, List.countP_map]
    have hpos : 0 < t.countP (fun x => decide (x.id = r.id)) := by
      rw [List.countP_pos_iff]
      obtain ⟨x, hx, hp⟩ := List.any_eq_true.mp hany
      exact ⟨x, hx, hp⟩
    have hcongr : t.countP
        ((fun x => decide (x.id = r.id)) ∘ (fun x => if x.id = r.id then r else x)) =
        t.countP (fun x => decide (x.id = r.id)) := by
      apply List.countP_congr
      intro x _
      by_cases hx : x.id = r.id <;> simp [hx]
    rw [hcongr]
    omega
  · rw [upsertRow, if_neg hany, List.countP_append]
    have h0 : t.countP (fun x => decide (x.id = r.id)) = 0 := by
      rw [List.countP_eq_zero]
      intro x hx hxr
      simp only [decide_eq_true_eq] at hxr
      exact hany (List.any_eq_true.mpr ⟨x, hx, by simp [hxr]⟩)
    rw [h0]
    simp

theorem seedLoopAux_spec (fails : Nat → Bool) :
    ∀ (bs : List (List DbRow)) (i : Nat) (t : List DbRow) (ins att : Nat),
      seedLoopAux fails i (t, ins, att) bs =
        ((((bs.enumFrom i).filter (fun p => fails p.1 = false)).map
            (fun p => p.2)).foldl upsertBatch t,
         ins + ((((bs.enumFrom i).filter (fun p => fails p.1 = false)).map
            (fun p => p.2.length)).sum),
         att + bs.length) := by
  intro bs
  induction bs with
  | nil => intro i t ins att; simp [seedLoopAux]
  | cons b bs ih =>
    intro i t ins att
    by_cases hf : fails i = true
    · simp only [seedLoopAux, if_pos hf, ih, List.enumFrom_cons]
      have hp : (fun p : Nat × List DbRow => decide (fails p.1 = false)) (i, b) = false := by
        simp [hf]
      rw [List.filter_cons_of_neg (by simpa using hp)]
      simp [Nat.add_comm, Nat.add_assoc, Nat.add_left_comm]
    · have hf' : fails i = false := eq_false_of_ne_true hf
      simp only [seedLoopAux, if_neg hf, ih, List.enumFrom_cons]
      rw [List.filter_cons_of_pos (by simp [hf'])]
      simp [Nat.add_comm, Nat.add_assoc, Nat.add_left_comm]

/-! # Claims C5 and C7 -/

/-- Claim C5 (confirmed).  The seed job splits the transformed rows into
consecutive slices of at most 500 whose concatenation is the original row
list, and the keyed upsert is idempotent per row: upserting the same row
twice equals upserting it once, and (on a table whose ids are unique, as
the `id` primary key guarantees) exactly one row with that id remains. -/
theorem C5_batch_upsert_idempotent :
    ∀ (features : List Feature) (t : List DbRow) (r : DbRow),
      (chunk500 (features.map seedTransform)).flatten = features.map seedTransform
      ∧ (∀ b ∈ chunk500 (features.map seedTransform), b.length ≤ 500)
      ∧ upsertRow (upsertRow t r) r = upsertRow t r
      ∧ (t.countP (fun x => decide (x.id = r.id)) ≤ 1 →
          (upsertRow t r).countP (fun x => decide (x.id = r.id)) = 1) :=
  fun features t r =>
    ⟨chunk500_flatten _, chunk500_length_le _, upsertRow_idem t r,
     fun h => countP_upsertRow t r h⟩

/-- A sample USGS feature for the witnesses. -/
def demoFeature : Feature :=
  { id := "us7000test", mag? := some (mkRat 45 10), place? := some "Gujarat, India",
    timeMs := 0, lng := 70, lat := 23, depth? := some 10 }

/-- A sample table row for the witnesses. -/
def demoRow : DbRow := seedTransform demoFeature

/-- Claim C5 (witness).  Concrete instances: chunking a one-row list, and the
idempotent upsert of `demoRow` into the empty table. -/
theorem C5_batch_upsert_idempotent_witness :
    (chunk500 ([demoFeature].map seedTransform)).flatten = [demoFeature].map seedTransform
    ∧ upsertRow (upsertRow [] demoRow) demoRow = upsertRow [] demoRow
    ∧ (upsertRow [] demoRow).countP (fun x => decide (x.id = demoRow.id)) = 1 :=
  ⟨(C5_batch_upsert_idempotent [demoFeature] [] demoRow).1,
   (C5_batch_upsert_idempotent [demoFeature] [] demoRow).2.2.1,
   (C5_batch_upsert_idempotent [demoFeature] [] demoRow).2.2.2 (by decide)⟩

/-- Claim C7 (confirmed).  In the seed job's batch loop a failed batch is
skipped, not fatal: every batch is attempted (the attempted count equals
the number of batches), `total_inserted` is exactly the sum of the sizes
of the successful batches, and the final table is the fold of the upsert
over the successful batches only. -/
theorem C7_failed_batch_skipped :
    ∀ (fails : Nat → Bool) (t0 : List DbRow) (features : List Feature),
      (seedRun t0 fails features).2.2 =
        (chunk500 (features.map seedTransform)).length
      ∧ (seedRun t0 fails features).2.1 =
          ((((chunk500 (features.map seedTransform)).enumFrom 0).filter
              (fun p => fails p.1 = false)).map (fun p => p.2.length)).sum
      ∧ (seedRun t0 fails features).1 =
          ((((chunk500 (features.map seedTransform)).enumFrom 0).filter
              (fun p => fails p.1 = false)).map (fun p => p.2)).foldl upsertBatch t0 := by
  intro fails t0 features
  unfold seedRun
  rw [seedLoopAux_spec]
  exact ⟨by simp, by simp, rfl⟩

/-! # Export lemmas and Claim C4 -/

/-- If `x` has at most `d` decimal places (its denominator divides `10^d`),
the value of `x.toFixed(d)` is `x` itself. -/
theorem toFixed_eq_self {d : Nat} {x : Rat} (h : 10 ^ d % x.den = 0) :
    toFixed d x = x := by
  obtain ⟨c, hc⟩ : x.den ∣ 10 ^ d := Nat.dvd_of_mod_eq_zero h
  have hden : 0 < x.den := x.pos
  have hpow : 0 < 10 ^ d := Nat.pos_pow_of_pos d (by omega)
  have hc0 : 0 < c := by
    rcases Nat.eq_zero_or_pos c with rfl | h' 
    · omega
    · exact h'
  have hr : toFixedScaled d x = x.num.natAbs * c := by
    unfold toFixedScaled
    rw [hc]
    have he : 2 * x.num.natAbs * (x.den * c) + x.den =
        x.den * (2 * (x.num.natAbs * c) + 1) := by ring
    rw [he, Nat.mul_comm 2 x.den, Nat.mul_div_mul_left _ _ hden]
    omega
  have hcne : ((c : Rat)) ≠ 0 := by
    exact_mod_cast hc0.ne'
  unfold toFixed
  rw [hr]
  by_cases hn : 0 ≤ x.num
  · rw [if_pos hn]
    have hcast : ((x.num.natAbs * c : Nat) : Int) = x.num * c := by
      push_cast [Int.natAbs_of_nonneg hn]
      ring
    rw [hcast, hc, Rat.mkRat_eq_divInt, Rat.divInt_eq_div]
    push_cast
    rw [mul_div_mul_right _ _ hcne]
    exact Rat.num_div_den x
  · rw [if_neg hn]
    have hneg : x.num ≤ 0 := le_of_not_le (fun hx => hn (le_of_lt (by omega)))
    have hcast : (-((x.num.natAbs * c : Nat) : Int)) = x.num * c := by
      push_cast [Int.ofNat_natAbs_of_nonpos hneg]
      ring
    rw [hcast, hc, Rat.mkRat_eq_divInt, Rat.divInt_eq_div]
    push_cast
    rw [mul_div_mul_right _ _ hcne]
    exact Rat.num_div_den x

/-- A timestamp at midnight UTC survives the date-only serialisation. -/
theorem day_roundtrip {t : Int} (h : t % 86400000 = 0) :
    Int.fdiv t 86400000 * 86400000 = t := by
  obtain ⟨c, rfl⟩ := Int.dvd_of_emod_eq_zero h
  rw [Int.mul_fdiv_cancel_left c (by norm_num), Int.mul_comm]

/-- A record whose magnitude has two decimal places and whose timestamp is
not at midnight. -/
def badExportEq : Earthquake :=
  { id := "demo", magnitude := mkRat 426 100, location := "Kutch, Gujarat",
    time := some 5000, depth := 10, lat := 23, lng := 70,
    state := "Gujarat", region := "West India", isHistorical := false }

/-- Claim C4 (counterexample).  The claim says CSV export followed by parsing
(and likewise JSON) reproduces magnitude, coordinates and timestamp
exactly.  For the record above (magnitude 4.26, event time 5 s past
midnight) the CSV magnitude comes back as 4.3 (`toFixed(1)`), and even the
JSON timestamp comes back truncated to the date (both exports serialise
only `toISOString().split("T")[0]`). -/
theorem C4_counterexample :
    exportToCSV [badExportEq] = some [exportCsvRow badExportEq]
    ∧ (parseCsvRow (exportCsvRow badExportEq)).magnitude ≠ badExportEq.magnitude
    ∧ (parseJsonRow (exportJsonRow badExportEq)).timeMs ≠ timeKey badExportEq :=
  ⟨rfl, by decide, by decide⟩

/-- Claim C4 (amended).  JSON export/parse reproduces magnitude, latitude and
longitude exactly; both exports reproduce the timestamp exactly iff it is
at midnight UTC (only the date is serialised); and CSV reproduces the
magnitude (resp. coordinates) exactly iff it has at most 1 (resp. 4)
decimal places, the `toFixed` precision used by the code. -/
theorem C4_amended :
    ∀ eq : Earthquake,
      (parseJsonRow (exportJsonRow eq)).magnitude = eq.magnitude
      ∧ (parseJsonRow (exportJsonRow eq)).latitude = eq.lat
      ∧ (parseJsonRow (exportJsonRow eq)).longitude = eq.lng
      ∧ (timeKey eq % 86400000 = 0 →
          (parseJsonRow (exportJsonRow eq)).timeMs = timeKey eq
          ∧ (parseCsvRow (exportCsvRow eq)).timeMs = timeKey eq)
      ∧ (10 ^ 1 % eq.magnitude.den = 0 →
          (parseCsvRow (exportCsvRow eq)).magnitude = eq.magnitude)
      ∧ (10 ^ 4 % eq.lat.den = 0 →
          (parseCsvRow (exportCsvRow eq)).latitude = eq.lat)
      ∧ (10 ^ 4 % eq.lng.den = 0 →
          (parseCsvRow (exportCsvRow eq)).longitude = eq.lng) := by
  intro eq
  refine ⟨rfl, rfl, rfl, fun h => ⟨day_roundtrip h, day_roundtrip h⟩,
    fun h => toFixed_eq_self h, fun h => toFixed_eq_self h,
    fun h => toFixed_eq_self h⟩

/-- A record with one-decimal magnitude, four-decimal latitude and a
midnight timestamp. -/
def roundExportEq : Earthquake :=
  { id := "w", magnitude := mkRat 45 10, location := "Latur, Maharashtra",
    time := some 172800000, depth := mkRat 101 10, lat := mkRat 231234 10000,
    lng := 70, state := "Maharashtra", region := "West India",
    isHistorical := false }

/-- Claim C4 (witness).  Concrete instances of `C4_amended`. -/
theorem C4_amended_witness :
    (parseJsonRow (exportJsonRow roundExportEq)).magnitude = roundExportEq.magnitude
    ∧ (parseCsvRow (exportCsvRow roundExportEq)).timeMs = timeKey roundExportEq
    ∧ (parseCsvRow (exportCsvRow roundExportEq)).magnitude = roundExportEq.magnitude
    ∧ (parseCsvRow (exportCsvRow roundExportEq)).latitude = roundExportEq.lat :=
  ⟨(C4_amended roundExportEq).1,
   ((C4_amended roundExportEq).2.2.2.1 (by decide)).2,
   (C4_amended roundExportEq).2.2.2.2.1 (by decide),
   (C4_amended roundExportEq).2.2.2.2.2.1 (by decide)⟩

/-! # Claim C6 -/

/-- A fully-configured environment for the witnesses: the Account SID
starts with `AC` and is 34 characters long. -/
def demoSmsEnv : SmsEnv :=
  { accountSid? := some "AC00000000000000000000000000000000",
    authToken? := some "token", fromNumber? := some "+15550006789" }

/-- Claim C6 (counterexample).  The claim says an upstream SMS-API failure
produces a *fixed* human-readable error string.  But for unrecognised
Twilio error codes the handler forwards `errorData.message` — two upstream
failures that differ only in the upstream body produce two different
error strings (both with status 500, which the claim gets right). -/
theorem C6_counterexample :
    (sendSmsHandler "9876543210" demoSmsEnv
        (.fail (some ⟨some "Queue overflow", some 30001⟩))).body =
      .failure "Queue overflow"
    ∧ (sendSmsHandler "9876543210" demoSmsEnv
        (.fail (some ⟨some "Region not enabled", some 30002⟩))).body =
      .failure "Region not enabled"
    ∧ ("Queue overflow" : String) ≠ "Region not enabled"
    ∧ (sendSmsHandler "9876543210" demoSmsEnv
        (.fail (some ⟨some "Queue overflow", some 30001⟩))).status = 500 :=
  ⟨by decide, by decide, by decide, by decide⟩

/-- Claim C6 (amended).  An invalid phone number yields status 400 with the
fixed string `invalidPhoneMsg`; missing credentials yield 500 with the
fixed `notConfiguredMsg` (and a malformed Account SID yields 500 with the
fixed `badSidFormatMsg`); an upstream failure yields 500 with `{ error }`
whose text is a fixed string for the four recognised Twilio codes and for
an unparseable body, and otherwise is the upstream-supplied message
(defaulting to `"Failed to send SMS"`); success yields 200 with
`{ success, message, sid }` carrying the fixed success message. -/
theorem C6_amended :
    ∀ (phone : String) (env : SmsEnv) (up : TwilioResult),
      (twilioAccepts phone.toList = false →
        sendSmsHandler phone env up = ⟨400, .failure invalidPhoneMsg⟩)
      ∧ (twilioAccepts phone.toList = true →
          (jsStrTruthy env.accountSid? && jsStrTruthy env.authToken? &&
           jsStrTruthy env.fromNumber?) = false →
          sendSmsHandler phone env up = ⟨500, .failure notConfiguredMsg⟩)
      ∧ (twilioAccepts phone.toList = true →
          (jsStrTruthy env.accountSid? && jsStrTruthy env.authToken? &&
           jsStrTruthy env.fromNumber?) = true →
          (startsWithChars ['A', 'C'] (env.accountSid?.getD "").toList &&
           (env.accountSid?.getD "").length = 34) = false →
          sendSmsHandler phone env up = ⟨500, .failure badSidFormatMsg⟩)
      ∧ (∀ p, twilioAccepts phone.toList = true →
          (jsStrTruthy env.accountSid? && jsStrTruthy env.authToken? &&
           jsStrTruthy env.fromNumber?) = true →
          (startsWithChars ['A', 'C'] (env.accountSid?.getD "").toList &&
           (env.accountSid?.getD "").length = 34) = true →
          up = .fail p →
          sendSmsHandler phone env up = ⟨500, .failure (twilioErrorMessage p)⟩)
      ∧ (∀ sid, twilioAccepts phone.toList = true →
          (jsStrTruthy env.accountSid? && jsStrTruthy env.authToken? &&
           jsStrTruthy env.fromNumber?) = true →
          (startsWithChars ['A', 'C'] (env.accountSid?.getD "").toList &&
           (env.accountSid?.getD "").length = 34) = true →
          up = .ok sid →
          sendSmsHandler phone env up = ⟨200, .success smsSuccessMsg sid⟩)
      ∧ twilioErrorMessage none = defaultSendFailMsg
      ∧ (∀ m, twilioErrorMessage (some ⟨m, some 20003⟩) = authFailedMsg)
      ∧ (∀ m, twilioErrorMessage (some ⟨m, some 21211⟩) = invalidToMsg)
      ∧ (∀ m, twilioErrorMessage (some ⟨m, some 21608⟩) = fromNotVerifiedMsg)
      ∧ (∀ m, twilioErrorMessage (some ⟨m, some 21610⟩) = unsubscribedMsg)
      ∧ (∀ msg code, code ∉ ([20003, 21211, 21608, 21610] : List Int) →
          twilioErrorMessage (some ⟨some msg, some code⟩) =
            (if msg = "" then defaultSendFailMsg else msg)) := by
  intro phone env up
  refine ⟨?_, ?_, ?_, ?_, ?_, rfl, ?_, ?_, ?_, ?_, ?_⟩
  · intro h
    simp [sendSmsHandler, show twilioAccepts phone.data = false from h]
  · intro h1 h2
    simp [sendSmsHandler, show twilioAccepts phone.data = true from h1, h2]
  · intro h1 h2 h3
    simp [sendSmsHandler, show twilioAccepts phone.data = true from h1, h2,
      show (startsWithChars ['A', 'C'] (env.accountSid?.getD "").data &&
        (env.accountSid?.getD "").length = 34) = false from h3]
  · rintro p h1 h2 h3 rfl
    simp [sendSmsHandler, show twilioAccepts phone.data = true from h1, h2,
      show (startsWithChars ['A', 'C'] (env.accountSid?.getD "").data &&
        (env.accountSid?.getD "").length = 34) = true from h3]
  · rintro sid h1 h2 h3 rfl
    simp [sendSmsHandler, show twilioAccepts phone.data = true from h1, h2,
      show (startsWithChars ['A', 'C'] (env.accountSid?.getD "").data &&
        (env.accountSid?.getD "").length = 34) = true from h3]
  · intro m; rfl
  · intro m
    simp [twilioErrorMessage]
  · intro m
    simp [twilioErrorMessage]
  · intro m
    simp [twilioErrorMessage]
  · intro msg code hn
    simp only [List.mem_cons, List.not_mem_nil, or_false, not_or] at hn
    obtain ⟨h1, h2, h3, h4⟩ := hn
    simp [twilioErrorMessage, jsOrStr, h1, h2, h3, h4]

/-- Claim C6 (witness).  Concrete instances of each branch of `C6_amended`. -/
theorem C6_amended_witness :
    sendSmsHandler "12345" demoSmsEnv (.ok "SM1") = ⟨400, .failure invalidPhoneMsg⟩
    ∧ sendSmsHandler "9876543210"
        { accountSid? := none, authToken? := none, fromNumber? := none }
        (.ok "SM1") = ⟨500, .failure notConfiguredMsg⟩
    ∧ sendSmsHandler "9876543210"
        { demoSmsEnv with accountSid? := some "SK123" }
        (.ok "SM1") = ⟨500, .failure badSidFormatMsg⟩
    ∧ sendSmsHandler "9876543210" demoSmsEnv (.fail none) =
        ⟨500, .failure (twilioErrorMessage none)⟩
    ∧ sendSmsHandler "9876543210" demoSmsEnv (.ok "SM123") =
        ⟨200, .success smsSuccessMsg "SM123"⟩
    ∧ twilioErrorMessage (some ⟨some "boom", some 30001⟩) = "boom" := by
  refine ⟨(C6_amended _ _ _).1 (by decide),
    (C6_amended _ _ _).2.1 (by decide) (by decide),
    (C6_amended _ _ _).2.2.1 (by decide) (by decide) (by decide),
    (C6_amended _ _ _).2.2.2.1 none (by decide) (by decide) (by decide) rfl,
    (C6_amended _ _ _).2.2.2.2.1 "SM123" (by decide) (by decide) (by decide) rfl,
    ?_⟩
  have := (C6_amended "9876543210" demoSmsEnv (.ok "SM1")).2.2.2.2.2.2.2.2.2.2
    "boom" 30001 (by decide)
  simpa using this

/-! # Statistics lemmas -/

theorem foldl_bump_apply {α κ : Type} [DecidableEq κ] (key : α → κ) :
    ∀ (l : List α) (f : κ → Nat) (k : κ),
      (l.foldl (fun g x => bump g (key x)) f) k =
        f k + l.countP (fun x => decide (key x = k)) := by
  intro l
  induction l with
  | nil => intro f k; simp
  | cons x l ih =>
    intro f k
    rw [List.foldl_cons, ih, List.countP_cons]
    by_cases hx : key x = k
    · simp [bump, hx]
      omega
    · have hkx : (k = key x) = False := by
        simp only [eq_iff_iff, iff_false]
        exact fun hk => hx hk.symm
      simp [bump, hkx, hx]

theorem foldl_max_le_init : ∀ (ms : List Rat) (m : Rat), m ≤ ms.foldl max m := by
  intro ms
  induction ms with
  | nil => intro m; simp
  | cons a ms ih => intro m; exact le_trans (le_max_left m a) (ih (max m a))

theorem foldl_max_mem :
    ∀ (ms : List Rat) (m : Rat), ms.foldl max m = m ∨ ms.foldl max m ∈ ms := by
  intro ms
  induction ms with
  | nil => intro m; simp
  | cons a ms ih =>
    intro m
    rcases ih (max m a) with h | h
    · rcases max_choice m a with hm | hm
      · left; rw [List.foldl_cons, h, hm]
      · right; rw [List.foldl_cons, h, hm]; exact List.mem_cons_self a ms
    · right; exact List.mem_cons_of_mem a h

theorem le_foldl_max :
    ∀ (ms : List Rat) (m x : Rat), x ∈ ms → x ≤ ms.foldl max m := by
  intro ms
  induction ms with
  | nil => intro m x hx; simp at hx
  | cons a ms ih =>
    intro m x hx
    rcases List.mem_cons.mp hx with rfl | hx
    · exact le_trans (le_max_right m x) (foldl_max_le_init ms (max m x))
    · exact ih (max m a) x hx

/-! # Claim C8 -/

/-- Claim C8 (counterexample).  The claim says the stats report counts by
state and the minimum magnitude; the stats object literal has neither a
`byState` nor a `minMagnitude` key (its keys are exactly `total`,
`avgMagnitude`, `maxMagnitude`, `byRegion`, `byDecade`). -/
theorem C8_counterexample :
    ("byState" ∉ statsObjectKeys) ∧ ("minMagnitude" ∉ statsObjectKeys) := by
  exact ⟨by decide, by decide⟩

/-- Claim C8 (amended).  Over the returned set the handler's stats report:
`total` = the number of records; counts by region and by decade, each
correct; `maxMagnitude` = the largest magnitude (0 when empty); and
`avgMagnitude` = the mean magnitude rounded to one decimal (0 when
empty).  No count by state and no minimum magnitude are reported. -/
theorem C8_amended :
    ∀ l : List Earthquake,
      (computeStats l).total = l.length
      ∧ (∀ r, (computeStats l).byRegion r =
          l.countP (fun eq => decide (eq.region = r)))
      ∧ (∀ dk, (computeStats l).byDecade dk =
          l.countP (fun eq => decide (decadeOf eq = dk)))
      ∧ (l = [] → (computeStats l).maxMagnitude = 0
          ∧ (computeStats l).avgMagnitude = 0)
      ∧ (l ≠ [] →
          (computeStats l).maxMagnitude ∈ l.map (fun eq => eq.magnitude)
          ∧ (∀ eq ∈ l, eq.magnitude ≤ (computeStats l).maxMagnitude)
          ∧ (computeStats l).avgMagnitude =
              toFixed 1 ((l.map (fun eq => eq.magnitude)).sum / (l.length : Rat))) := by
  intro l
  refine ⟨rfl, ?_, ?_, ?_, ?_⟩
  · intro r
    have := foldl_bump_apply (fun eq : Earthquake => eq.region) l (fun _ => 0) r
    simpa [computeStats] using this
  · intro dk
    have := foldl_bump_apply (fun eq : Earthquake => decadeOf eq) l (fun _ => 0) dk
    simpa [computeStats] using this
  · rintro rfl
    exact ⟨rfl, rfl⟩
  · intro hne
    obtain ⟨x, xs, rfl⟩ := List.exists_cons_of_ne_nil hne
    refine ⟨?_, ?_, ?_⟩
    · have hmm : (computeStats (x :: xs)).maxMagnitude =
          (xs.map (fun eq => eq.magnitude)).foldl max x.magnitude := rfl
      rw [hmm]
      rcases foldl_max_mem (xs.map (fun eq => eq.magnitude)) x.magnitude with h | h
      · rw [h]; exact List.mem_cons_self _ _
      · exact List.mem_cons_of_mem _ h
    · intro eq hmem
      have hmm : (computeStats (x :: xs)).maxMagnitude =
          (xs.map (fun eq => eq.magnitude)).foldl max x.magnitude := rfl
      rw [hmm]
      rcases List.mem_cons.mp hmem with rfl | hmem
      · exact foldl_max_le_init _ _
      · exact le_foldl_max _ _ _ (List.mem_map_of_mem _ hmem)
    · simp [computeStats]

/-- Two sample records for the C8 witness. -/
def demoEqOne : Earthquake :=
  { id := "d1", magnitude := mkRat 55 10, location := "Delhi Region",
    time := some 0, depth := 10, lat := 28, lng := 77,
    state := "Delhi NCR", region := "North India", isHistorical := false }

def demoEqTwo : Earthquake :=
  { id := "d2", magnitude := mkRat 65 10, location := "Koyna, Maharashtra",
    time := some 86400000, depth := 12, lat := 19, lng := 73,
    state := "Maharashtra", region := "West India", isHistorical := false }

def demoEqList : List Earthquake := [demoEqOne, demoEqTwo]

/-- Claim C8 (witness).  Concrete instances of `C8_amended`. -/
theorem C8_amended_witness :
    (computeStats demoEqList).total = demoEqList.length
    ∧ (computeStats demoEqList).byRegion "West India" =
        demoEqList.countP (fun eq => decide (eq.region = "West India"))
    ∧ (computeStats demoEqList).maxMagnitude ∈
        demoEqList.map (fun eq => eq.magnitude) :=
  ⟨(C8_amended demoEqList).1,
   (C8_amended demoEqList).2.1 "West India",
   ((C8_amended demoEqList).2.2.2.2 (by decide)).1⟩

/-! # Claim C9 -/

/-- Claim C9 (confirmed).  Every successful `fetch-earthquakes` response has
its `earthquakes` array sorted by event time descending (most recent
first), `count` equal to the array's length, `stats.total` equal to
`count`, and every returned record carries a valid event time. -/
theorem C9_response_sorted :
    ∀ (nowYear : Int) (q : FetchQuery) (features : List Feature),
      List.Pairwise timeDesc (fetchHandler nowYear q features).earthquakes
      ∧ (fetchHandler nowYear q features).count =
          (fetchHandler nowYear q features).earthquakes.length
      ∧ (fetchHandler nowYear q features).stats.total =
          (fetchHandler nowYear q features).count
      ∧ (fetchHandler nowYear q features).earthquakes.all
          (fun eq => eq.time.isSome) = true := by
  intro nowYear q features
  refine ⟨List.sorted_insertionSort timeDesc _, rfl, rfl, ?_⟩
  show (List.insertionSort timeDesc _).all _ = true
  rw [List.all_eq_true]
  intro eq hmem
  rw [List.mem_insertionSort, List.mem_append] at hmem
  rcases hmem with h | h
  · by_cases hc : jsOrStr q.type? "recent" = "recent" ∨ jsOrStr q.type? "recent" = "all"
    · rw [if_pos hc] at h
      obtain ⟨f, _, rfl⟩ := List.mem_map.mp h
      rfl
    · rw [if_neg hc] at h
      simp at h
  · by_cases hc : jsOrStr q.type? "recent" = "historical" ∨ jsOrStr q.type? "recent" = "all"
    · rw [if_pos hc] at h
      have hkeep := (List.mem_filter.mp ((List.mem_filter.mp h).1)).2
      cases hteq : eq.time with
      | none =>
        rw [histKeep, hteq] at hkeep
        simp [getFullYear] at hkeep
      | some t => rfl
    · rw [if_neg hc] at h
      simp at h

/-! # Claim C3 -/

/-- A query asking for the historical dataset between 2010 and 2020, with
`limit=1` supplied. -/
def demoQueryHistorical : FetchQuery :=
  { type? := some "historical", startYear? := some 2010, endYear? := some 2020,
    minMagnitude? := none, state? := none, region? := none, limit? := some "1" }

/-- Claim C3 (counterexample).  The claim says the handler honours `limit`
and that every successful response contains a `source` field.  The
response object literal has no `source` key, and with `limit=1` the
handler still returns all 3 matching historical records. -/
theorem C3_counterexample :
    ("source" ∉ fetchResponseKeys)
    ∧ (fetchHandler 2026 demoQueryHistorical []).count = 3
    ∧ ¬ ((fetchHandler 2026 demoQueryHistorical []).count ≤ 1) :=
  ⟨by decide, by decide, by decide⟩

/-- Claim C3 (amended).  The handler honours `type`, `startYear`, `endYear`
and `minMagnitude`: `type` selects the data sources and is echoed back,
`startYear`/`endYear` are echoed in `dateRange` and (with `minMagnitude`)
filter the bundled historical data, and all four shape the upstream USGS
request.  The `state`, `region` and `limit` parameters are never read and
do not affect the response.  A successful response contains exactly the
fields `earthquakes`, `count`, `stats`, `dataType`, `dateRange` — and no
`source` field. -/
theorem C3_amended :
    ∀ (nowYear : Int) (q : FetchQuery) (features : List Feature),
      (∀ s r lim, fetchHandler nowYear
          { q with state? := s, region? := r, limit? := lim } features =
          fetchHandler nowYear q features)
      ∧ (fetchHandler nowYear q features).dataType = jsOrStr q.type? "recent"
      ∧ (fetchHandler nowYear q features).dateRange =
          (q.startYear?.getD 1900, q.endYear?.getD nowYear)
      ∧ (q.type? = some "historical" →
          ∀ eq ∈ (fetchHandler nowYear q features).earthquakes,
            histKeep (q.startYear?.getD 1900) (q.endYear?.getD nowYear)
              (q.minMagnitude?.getD 0) eq = true)
      ∧ (∀ dt sy ey mm, (usgsRequestOf dt sy ey mm).minMagnitude =
            max mm (if dt = "all" then mkRat 9 2 else 0)
          ∧ (usgsRequestOf "recent" sy ey mm).start = .last30Days
          ∧ (usgsRequestOf "all" sy ey mm).start = .janFirst (max 1900 sy)
          ∧ (usgsRequestOf dt sy ey mm).endYear = ey
          ∧ (usgsRequestOf dt sy ey mm).limit = 2000) := by
  intro nowYear q features
  refine ⟨fun s r lim => rfl, rfl, rfl, ?_,
    fun dt sy ey mm => ⟨rfl, rfl, by simp [usgsRequestOf], rfl, rfl⟩⟩
  intro htype eq hmem
  have hdt : jsOrStr q.type? "recent" = "historical" := by rw [htype]; rfl
  have h1 : ¬ (("historical" : String) = "recent" ∨
      ("historical" : String) = "all") := by decide
  have h2 : (("historical" : String) = "historical" ∨
      ("historical" : String) = "all") := Or.inl rfl
  simp only [fetchHandler, hdt, if_neg h1, if_pos h2] at hmem
  rw [List.mem_insertionSort] at hmem
  rw [List.nil_append] at hmem
  exact (List.mem_filter.mp ((List.mem_filter.mp hmem).1)).2

/-- The `hist-2016` record of the bundled historical list. -/
def histManipur2016 : Earthquake :=
  { id := "hist-2016", magnitude := mkRat 67 10, location := "Manipur",
    time := mkTime 2016 1 4 4 35, depth := 55, lat := mkRat 248 10,
    lng := mkRat 937 10, state := "Manipur", region := "North-East India",
    isHistorical := true }

/-- Claim C3 (witness).  Concrete instances of `C3_amended`: changing
`state`/`region`/`limit` does not change the response, and the `hist-2016`
record returned for the 2010–2020 historical query passes the filter. -/
theorem C3_amended_witness :
    fetchHandler 2026
      { demoQueryHistorical with
          state? := some "Bihar",
          region? := some "East India",
          limit? := some "5" } [] =
      fetchHandler 2026 demoQueryHistorical []
    ∧ histKeep 2010 2020 0 histManipur2016 = true :=
  ⟨(C3_amended 2026 demoQueryHistorical []).1 (some "Bihar")
      (some "East India") (some "5"),
   (C3_amended 2026 demoQueryHistorical []).2.2.2.1 rfl histManipur2016 (by decide)⟩
